import Mathlib

/-!
# SceneManager (CS330 computer graphics scene)

A shallow embedding of `SceneManager.cpp`: the texture-slot table, the material
list, the transform composition and the scene preparation routines, followed by
the theorems that settle the claims made about them.

Conventions of the embedding

* C++ `int` values are `Int`; the counters of this file stay far below `2^31`
  on every path that is free of undefined behaviour, so no wrap-around occurs.
* OpenGL texture names are `GLuint`, unsigned 32-bit: they are `Nat` reduced
  modulo `2^32`, and `toInt32` is their conversion to `int`.
* `float` values are elements of a field `F`; the code only copies them, except
  in `SetTransformations`, which is studied over exact arithmetic.
* An access outside an array, or through a null pointer, is undefined behaviour
  in C++; the embedding returns `Except.error` with the `Fault` that names it.
* `while` and `for` loops are recursive functions over a fuel argument; every
  entry point passes enough fuel and the theorems show a result is produced.
* The render routines act on a `Run`: the scene manager together with the log of
  the calls made so far, which is what the claims about `RenderScene` speak of.
-/

set_option autoImplicit false

/-- The ways an operation of the embedding can leave defined behaviour. -/
inductive Fault where
  /-- an array element outside `m_textureIDs[0..15]` was read or written -/
  | outOfBounds
  /-- a member function was called through a null `m_pShaderManager` -/
  | nullDereference
  /-- the recursion budget of a loop was exhausted (never reached from an entry point) -/
  | outOfFuel
  deriving DecidableEq, Repr

deriving instance DecidableEq for Except

/-- The value an `int` takes when it is stored in an unsigned 32-bit object
(`GLuint`, `uint32_t`): its residue modulo `2^32`. -/
def toGLuint (i : Int) : Nat := (i % 4294967296).toNat

/-- The value an unsigned 32-bit object takes when it is converted to `int`:
values from `2^31` on come out negative, `4294967295` comes out as `-1`. -/
def toInt32 (n : Nat) : Int :=
  if n % 4294967296 < 2147483648 then ((n % 4294967296 : Nat) : Int)
  else ((n % 4294967296 : Nat) : Int) - 4294967296

/-- Modelled from the spec: the declaration of `TEXTURE_INFO` lives in
`SceneManager.h`, which is not among the sources; the spec describes the table
as tag/ID pairs.  `ID` holds an OpenGL texture name, an unsigned 32-bit value:
the code passes its address to `glDeleteTextures` and assigns a `GLuint` to it. -/
structure TEXTURE_INFO where
  tag : String
  ID : Nat
  deriving DecidableEq, Repr

/-- A three component vector `glm::vec3`. -/
structure vec3 (F : Type) where
  x : F
  y : F
  z : F
  deriving DecidableEq, Repr

/-- Modelled from the spec: the declaration of `OBJECT_MATERIAL` lives in
`SceneManager.h`; the fields are the ones `FindMaterial` and
`DefineObjectMaterials` read and write. -/
structure OBJECT_MATERIAL (F : Type) where
  ambientColor : vec3 F
  ambientStrength : F
  diffuseColor : vec3 F
  specularColor : vec3 F
  shininess : F
  tag : String
  deriving DecidableEq, Repr

/-- The values a shader uniform can hold. -/
inductive UniformValue (F : Type) where
  | int (v : Int)
  | bool (b : Bool)
  | float (v : F)
  | vec2 (u v : F)
  | vec3 (v : vec3 F)
  | vec4 (r g b a : F)
  | mat4 (m : Matrix (Fin 4) (Fin 4) F)
  | sampler2D (slot : Int)

/-- Modelled from the spec: `ShaderManager` is a class of the repository that is
not among the sources; only its setters are called here.  It is modelled as the
store of the value last set for every uniform name. -/
structure ShaderManager (F : Type) where
  uniforms : String → Option (UniformValue F)

/-- Set the uniform `name` to `v`, every other uniform keeps its value. -/
def ShaderManager.setValue {F : Type} (sm : ShaderManager F) (name : String)
    (v : UniformValue F) : ShaderManager F :=
  { uniforms := fun n => if n = name then some v else sm.uniforms n }

namespace ShaderManager

variable {F : Type}

/-- The setter `setMat4Value(name, value)`. -/
def setMat4Value (sm : ShaderManager F) (name : String) (m : Matrix (Fin 4) (Fin 4) F) :
    ShaderManager F := sm.setValue name (.mat4 m)

/-- The setter `setIntValue(name, value)`. -/
def setIntValue (sm : ShaderManager F) (name : String) (v : Int) : ShaderManager F :=
  sm.setValue name (.int v)

/-- The setter `setBoolValue(name, value)`. -/
def setBoolValue (sm : ShaderManager F) (name : String) (b : Bool) : ShaderManager F :=
  sm.setValue name (.bool b)

/-- The setter `setFloatValue(name, value)`. -/
def setFloatValue (sm : ShaderManager F) (name : String) (v : F) : ShaderManager F :=
  sm.setValue name (.float v)

/-- The setter `setVec3Value(name, value)` taking a `glm::vec3`. -/
def setVec3Value (sm : ShaderManager F) (name : String) (v : vec3 F) : ShaderManager F :=
  sm.setValue name (.vec3 v)

/-- The setter `setVec3Value(name, x, y, z)` taking three floats. -/
def setVec3ValueXYZ (sm : ShaderManager F) (name : String) (x y z : F) : ShaderManager F :=
  sm.setValue name (.vec3 ⟨x, y, z⟩)

/-- The setter `setVec2Value(name, value)` taking a `glm::vec2`. -/
def setVec2Value (sm : ShaderManager F) (name : String) (u v : F) : ShaderManager F :=
  sm.setValue name (.vec2 u v)

/-- The setter `setVec4Value(name, value)` taking a `glm::vec4`. -/
def setVec4Value (sm : ShaderManager F) (name : String) (r g b a : F) : ShaderManager F :=
  sm.setValue name (.vec4 r g b a)

/-- The setter `setSampler2DValue(name, slot)`. -/
def setSampler2DValue (sm : ShaderManager F) (name : String) (slot : Int) :
    ShaderManager F := sm.setValue name (.sampler2D slot)

end ShaderManager

/-- The functions of the GLM maths library that are not field operations. -/
structure GlmMath (F : Type) where
  cos : F → F
  sin : F → F
  /-- degrees to radians -/
  radians : F → F
  /-- the reciprocal of the square root, used by `glm::normalize` -/
  inversesqrt : F → F

namespace glm

variable {F : Type} [Field F]

/-- The matrix `glm::scale(v)`, which is `glm::scale(mat4(1), v)`: the columns of
the identity multiplied by the components of `v`. -/
def scale (v : vec3 F) : Matrix (Fin 4) (Fin 4) F :=
  !![v.x, 0, 0, 0;
     0, v.y, 0, 0;
     0, 0, v.z, 0;
     0, 0, 0, 1]

/-- The matrix `glm::translate(v)`, which is `glm::translate(mat4(1), v)`: the
identity with `v` in the last column. -/
def translate (v : vec3 F) : Matrix (Fin 4) (Fin 4) F :=
  !![1, 0, 0, v.x;
     0, 1, 0, v.y;
     0, 0, 1, v.z;
     0, 0, 0, 1]

/-- The vector `glm::normalize(v)`, which is `v * inversesqrt(dot(v, v))`. -/
def normalize (g : GlmMath F) (v : vec3 F) : vec3 F :=
  let k := g.inversesqrt (v.x * v.x + v.y * v.y + v.z * v.z)
  ⟨v.x * k, v.y * k, v.z * k⟩

/-- The matrix `glm::rotate(angle, v)`, which is `glm::rotate(mat4(1), angle, v)`.
GLM stores `Rotate[column][row]`; the matrix below is written row by row. -/
def rotate (g : GlmMath F) (angle : F) (v : vec3 F) : Matrix (Fin 4) (Fin 4) F :=
  let c := g.cos angle
  let s := g.sin angle
  let axis := normalize g v
  let temp : vec3 F := ⟨(1 - c) * axis.x, (1 - c) * axis.y, (1 - c) * axis.z⟩
  !![c + temp.x * axis.x, temp.y * axis.x - s * axis.z, temp.z * axis.x + s * axis.y, 0;
     temp.x * axis.y + s * axis.z, c + temp.y * axis.y, temp.z * axis.y - s * axis.x, 0;
     temp.x * axis.z - s * axis.y, temp.y * axis.z + s * axis.x, c + temp.z * axis.z, 0;
     0, 0, 0, 1]

end glm

/-- Modelled from the spec: `ShapeMeshes` is a class of the repository that is
not among the sources; the model records which meshes were loaded and which
draw calls were issued, in order. -/
structure ShapeMeshes where
  loaded : List String
  drawn : List String
  deriving DecidableEq, Repr

/-- The part of the OpenGL context that the texture routines touch. -/
structure GLContext where
  /-- number of texture names handed out by `glGenTextures` so far -/
  generated : Nat
  /-- texture names passed to `glDeleteTextures`, most recent first -/
  deleted : List Nat
  /-- `(texture unit, texture name)` bindings made by `BindGLTextures`, most recent first -/
  bound : List (Int × Nat)
  deriving DecidableEq, Repr

/-- What `stb_image` reports for a decoded file. -/
structure Image where
  width : Int
  height : Int
  colorChannels : Int
  deriving DecidableEq, Repr

/-- The world outside the program: the outcome of decoding each image file
(`none` when `stbi_load` returns a null pointer) and the texture name the
driver returns for the `n`-th call of `glGenTextures`. -/
structure Env where
  stbi_load : String → Option Image
  glGenTextures : Nat → Nat

/-- The members of the class `SceneManager`, together with the OpenGL context
its methods act on. -/
structure SceneManager (F : Type) where
  m_pShaderManager : Option (ShaderManager F)
  m_basicMeshes : ShapeMeshes
  /-- the array `TEXTURE_INFO m_textureIDs[16]` -/
  m_textureIDs : Fin 16 → TEXTURE_INFO
  m_loadedTextures : Int
  m_objectMaterials : List (OBJECT_MATERIAL F)
  gl : GLContext

namespace SceneManager

variable {F : Type}

/-- The constructor `SceneManager::SceneManager(pShaderManager)`, run in the
OpenGL context `gl`. -/
def new (pShaderManager : Option (ShaderManager F)) (gl : GLContext) : SceneManager F :=
  { m_pShaderManager := pShaderManager
    m_basicMeshes := { loaded := [], drawn := [] }
    m_textureIDs := fun _ => { tag := "/0", ID := toGLuint (-1) }
    m_loadedTextures := 0
    m_objectMaterials := []
    gl := gl }

/-- The read `m_textureIDs[index]`; outside `0..15` it is undefined behaviour. -/
def textureAt (s : SceneManager F) (index : Int) : Except Fault TEXTURE_INFO :=
  if h : 0 ≤ index ∧ index < 16 then
    .ok (s.m_textureIDs ⟨index.toNat, by omega⟩)
  else .error .outOfBounds

/-- The assignment `m_textureIDs[index].ID = id`. -/
def setTextureID (s : SceneManager F) (index : Int) (id : Nat) :
    Except Fault (SceneManager F) :=
  if h : 0 ≤ index ∧ index < 16 then
    let i : Fin 16 := ⟨index.toNat, by omega⟩
    .ok { s with
      m_textureIDs := Function.update s.m_textureIDs i ⟨(s.m_textureIDs i).tag, id⟩ }
  else .error .outOfBounds

/-- The assignment `m_textureIDs[index].tag = tag`. -/
def setTextureTag (s : SceneManager F) (index : Int) (tag : String) :
    Except Fault (SceneManager F) :=
  if h : 0 ≤ index ∧ index < 16 then
    let i : Fin 16 := ⟨index.toNat, by omega⟩
    .ok { s with
      m_textureIDs := Function.update s.m_textureIDs i ⟨tag, (s.m_textureIDs i).ID⟩ }
  else .error .outOfBounds

/-- The `while` loop of `FindTextureSlot`, with its three local variables. -/
def FindTextureSlot.loop (s : SceneManager F) (tag : String) :
    Nat → Int → Bool → Int → Except Fault Int
  | 0, _, _, _ => .error .outOfFuel
  | fuel + 1, index, bFound, textureSlot =>
    if index < s.m_loadedTextures ∧ bFound = false then
      match s.textureAt index with
      | .error e => .error e
      | .ok info =>
        if info.tag = tag then
          FindTextureSlot.loop s tag fuel index true index
        else
          FindTextureSlot.loop s tag fuel (index + 1) bFound textureSlot
    else .ok textureSlot

/-- The method `SceneManager::FindTextureSlot(tag)`. -/
def FindTextureSlot (s : SceneManager F) (tag : String) : Except Fault Int :=
  FindTextureSlot.loop s tag (s.m_loadedTextures.toNat + 2) 0 false (-1)

/-- The `while` loop of `FindTextureID`, with its three local variables. -/
def FindTextureID.loop (s : SceneManager F) (tag : String) :
    Nat → Int → Bool → Int → Except Fault Int
  | 0, _, _, _ => .error .outOfFuel
  | fuel + 1, index, bFound, textureID =>
    if index < s.m_loadedTextures ∧ bFound = false then
      match s.textureAt index with
      | .error e => .error e
      | .ok info =>
        if info.tag = tag then
          FindTextureID.loop s tag fuel index true (toInt32 info.ID)
        else
          FindTextureID.loop s tag fuel (index + 1) bFound textureID
    else .ok textureID

/-- The method `SceneManager::FindTextureID(tag)`. -/
def FindTextureID (s : SceneManager F) (tag : String) : Except Fault Int :=
  FindTextureID.loop s tag (s.m_loadedTextures.toNat + 2) 0 false (-1)

/-- The method `SceneManager::CreateGLTexture(filename, tag)`; the result is the
returned `bool` and the state after the call. -/
def CreateGLTexture (env : Env) (s : SceneManager F) (filename : String) (tag : String) :
    Except Fault (Bool × SceneManager F) :=
  match env.stbi_load filename with
  | some image =>
    -- GLuint textureID; glGenTextures(1, &textureID)
    let textureID : Nat := env.glGenTextures s.gl.generated % 4294967296
    let s1 : SceneManager F :=
      { s with gl := { s.gl with generated := s.gl.generated + 1 } }
    if image.colorChannels = 3 ∨ image.colorChannels = 4 then
      -- register the loaded texture and associate it with the tag
      match s1.setTextureID s1.m_loadedTextures textureID with
      | .error e => .error e
      | .ok s2 =>
        match s2.setTextureTag s2.m_loadedTextures tag with
        | .error e => .error e
        | .ok s3 => .ok (true, { s3 with m_loadedTextures := s3.m_loadedTextures + 1 })
    else
      -- "Not implemented to handle image with ... channels"
      .ok (false, s1)
  | none => .ok (false, s)

/-- The `for` loop of `BindGLTextures`. -/
def BindGLTextures.loop (s : SceneManager F) : Nat → Int → GLContext → Except Fault GLContext
  | 0, _, _ => .error .outOfFuel
  | fuel + 1, i, gl =>
    if i < s.m_loadedTextures then
      match s.textureAt i with
      | .error e => .error e
      | .ok info => BindGLTextures.loop s fuel (i + 1) { gl with bound := (i, info.ID) :: gl.bound }
    else .ok gl

/-- The method `SceneManager::BindGLTextures()`. -/
def BindGLTextures (s : SceneManager F) : Except Fault (SceneManager F) :=
  match BindGLTextures.loop s (s.m_loadedTextures.toNat + 1) 0 s.gl with
  | .error e => .error e
  | .ok gl => .ok { s with gl := gl }

/-- The `for` loop of `DestroyGLTextures`. -/
def DestroyGLTextures.loop (s : SceneManager F) : Nat → Int → GLContext → Except Fault GLContext
  | 0, _, _ => .error .outOfFuel
  | fuel + 1, i, gl =>
    if i < s.m_loadedTextures then
      match s.textureAt i with
      | .error e => .error e
      | .ok info =>
        if info.ID ≠ 0 then
          DestroyGLTextures.loop s fuel (i + 1) { gl with deleted := info.ID :: gl.deleted }
        else
          DestroyGLTextures.loop s fuel (i + 1) gl
    else .ok gl

/-- The method `SceneManager::DestroyGLTextures()`. -/
def DestroyGLTextures (s : SceneManager F) : Except Fault (SceneManager F) :=
  match DestroyGLTextures.loop s (s.m_loadedTextures.toNat + 1) 0 s.gl with
  | .error e => .error e
  | .ok gl => .ok { s with gl := gl, m_loadedTextures := 0 }

/-- One statement `bReturn = CreateGLTexture(filename, tag);` whose result is
not looked at. -/
def loadTexture (env : Env) (filename tag : String) (s : SceneManager F) :
    Except Fault (SceneManager F) :=
  match CreateGLTexture env s filename tag with
  | .error e => .error e
  | .ok (_, s1) => .ok s1

/-- The method `SceneManager::LoadSceneTextures()`. -/
def LoadSceneTextures (env : Env) (s : SceneManager F) : Except Fault (SceneManager F) :=
  loadTexture env "Debug/textures/woodesk.jpg" "desk" s
    >>= loadTexture env "Debug/textures/mugbody.jpg" "mugbody"
    >>= loadTexture env "Debug/textures/mugholder.jpg" "mugholder"
    >>= loadTexture env "Debug/textures/coffeetop1.jpg" "coffee"
    >>= loadTexture env "Debug/textures/keyboard.jpg" "keyboard"
    >>= loadTexture env "Debug/textures/Screentexture.jpg" "screen"
    >>= loadTexture env "Debug/textures/Macbook.jpg" "macbook"
    >>= loadTexture env "Debug/textures/lamp.jpg" "lamp"
    >>= loadTexture env "Debug/textures/wall.jpg" "wall"
    >>= loadTexture env "Debug/textures/mouse.jpg" "mouse"
    >>= loadTexture env "Debug/textures/mousepad.png" "mousepad"
    >>= BindGLTextures

/-- The `while` loop of `FindMaterial`; `material` is the caller's object that
the loop assigns to. -/
def FindMaterial.loop (s : SceneManager F) (tag : String) :
    Nat → Nat → Bool → OBJECT_MATERIAL F → Except Fault (OBJECT_MATERIAL F)
  | 0, _, _, _ => .error .outOfFuel
  | fuel + 1, index, bFound, material =>
    if h : index < s.m_objectMaterials.length ∧ bFound = false then
      let entry := s.m_objectMaterials.get ⟨index, h.1⟩
      if entry.tag = tag then
        FindMaterial.loop s tag fuel index true
          { material with
            ambientColor := entry.ambientColor
            ambientStrength := entry.ambientStrength
            diffuseColor := entry.diffuseColor
            specularColor := entry.specularColor
            shininess := entry.shininess }
      else
        FindMaterial.loop s tag fuel (index + 1) bFound material
    else .ok material

/-- The method `SceneManager::FindMaterial(tag, material)`; the result is the
returned `bool` and the value of `material` after the call.  The method has no
assignment to a member, so the state is not part of the result. -/
def FindMaterial (s : SceneManager F) (tag : String) (material : OBJECT_MATERIAL F) :
    Except Fault (Bool × OBJECT_MATERIAL F) :=
  if s.m_objectMaterials.length = 0 then
    .ok (false, material)
  else
    match FindMaterial.loop s tag (s.m_objectMaterials.length + 2) 0 false material with
    | .error e => .error e
    | .ok material1 => .ok (true, material1)

/-- The method `SceneManager::SetShaderMaterial(materialTag)`.  The local
`OBJECT_MATERIAL material;` starts with an indeterminate value, passed in as
`material`. -/
def SetShaderMaterial (s : SceneManager F) (materialTag : String)
    (material : OBJECT_MATERIAL F) : Except Fault (SceneManager F) :=
  if s.m_objectMaterials.length > 0 then
    match FindMaterial s materialTag material with
    | .error e => .error e
    | .ok (bReturn, material1) =>
      if bReturn = true then
        match s.m_pShaderManager with
        | none => .error .nullDereference
        | some sm =>
          .ok { s with
            m_pShaderManager := some
              (((((sm.setVec3Value "material.ambientColor" material1.ambientColor).setFloatValue
                "material.ambientStrength" material1.ambientStrength).setVec3Value
                "material.diffuseColor" material1.diffuseColor).setVec3Value
                "material.specularColor" material1.specularColor).setFloatValue
                "material.shininess" material1.shininess) }
      else .ok s
  else .ok s

/-- The global `g_ModelName`. -/
def g_ModelName : String := "model"

section Transform

variable [Field F]

/-- The value of the local `modelView` of `SetTransformations`. -/
def SetTransformations.modelView (g : GlmMath F) (scaleXYZ : vec3 F)
    (XrotationDegrees YrotationDegrees ZrotationDegrees : F) (positionXYZ : vec3 F) :
    Matrix (Fin 4) (Fin 4) F :=
  let scale := glm.scale scaleXYZ
  let rotationX := glm.rotate g (g.radians XrotationDegrees) ⟨1, 0, 0⟩
  let rotationY := glm.rotate g (g.radians YrotationDegrees) ⟨0, 1, 0⟩
  let rotationZ := glm.rotate g (g.radians ZrotationDegrees) ⟨0, 0, 1⟩
  let translation := glm.translate positionXYZ
  translation * rotationX * rotationY * rotationZ * scale

/-- The method `SceneManager::SetTransformations(...)`. -/
def SetTransformations (g : GlmMath F) (s : SceneManager F) (scaleXYZ : vec3 F)
    (XrotationDegrees YrotationDegrees ZrotationDegrees : F) (positionXYZ : vec3 F) :
    SceneManager F :=
  let modelView := SetTransformations.modelView g scaleXYZ
    XrotationDegrees YrotationDegrees ZrotationDegrees positionXYZ
  match s.m_pShaderManager with
  | some sm => { s with m_pShaderManager := some (sm.setMat4Value g_ModelName modelView) }
  | none => s

/-- The matrix the specification describes for `SetTransformations`:
`translation * rotationZ * rotationY * rotationX * scale`. -/
def modelMatrixAsSpecified (g : GlmMath F) (scaleXYZ : vec3 F)
    (XrotationDegrees YrotationDegrees ZrotationDegrees : F) (positionXYZ : vec3 F) :
    Matrix (Fin 4) (Fin 4) F :=
  glm.translate positionXYZ
    * glm.rotate g (g.radians ZrotationDegrees) ⟨0, 0, 1⟩
    * glm.rotate g (g.radians YrotationDegrees) ⟨0, 1, 0⟩
    * glm.rotate g (g.radians XrotationDegrees) ⟨1, 0, 0⟩
    * glm.scale scaleXYZ

/-- The method `SceneManager::DefineObjectMaterials()`. -/
def DefineObjectMaterials (s : SceneManager F) : SceneManager F :=
  let plasticMaterial : OBJECT_MATERIAL F :=
    { ambientColor := ⟨0.2, 0.2, 0.1⟩, ambientStrength := 0.4
      diffuseColor := ⟨0.3, 0.3, 0.2⟩, specularColor := ⟨0.6, 0.5, 0.4⟩
      shininess := 12.0, tag := "plastic" }
  let metalMaterial : OBJECT_MATERIAL F :=
    { ambientColor := ⟨0.2, 0.2, 0.2⟩, ambientStrength := 0.3
      diffuseColor := ⟨0.2, 0.2, 0.2⟩, specularColor := ⟨0.5, 0.5, 0.5⟩
      shininess := 17.0, tag := "metal" }
  let cementMaterial : OBJECT_MATERIAL F :=
    { ambientColor := ⟨0.2, 0.2, 0.2⟩, ambientStrength := 0.06
      diffuseColor := ⟨0.42, 0.42, 0.42⟩, specularColor := ⟨0.8, 0.6, 0.3⟩
      shininess := 8.0, tag := "cement" }
  let woodMaterial : OBJECT_MATERIAL F :=
    { ambientColor := ⟨0.05, 0.05, 0.05⟩, ambientStrength := 0.1
      diffuseColor := ⟨0.1, 0.1, 0.1⟩, specularColor := ⟨0.8, 0.6, 0.3⟩
      shininess := 16.0, tag := "wood" }
  let glassMaterial : OBJECT_MATERIAL F :=
    { ambientColor := ⟨0.2, 0.3, 0.4⟩, ambientStrength := 0.3
      diffuseColor := ⟨0.3, 0.2, 0.1⟩, specularColor := ⟨0.4, 0.5, 0.6⟩
      shininess := 35.0, tag := "glass" }
  let clayMaterial : OBJECT_MATERIAL F :=
    { ambientColor := ⟨0.2, 0.2, 0.3⟩, ambientStrength := 0.3
      diffuseColor := ⟨0.4, 0.4, 0.5⟩, specularColor := ⟨0.2, 0.2, 0.4⟩
      shininess := 0.5, tag := "clay" }
  let MousepadMaterial : OBJECT_MATERIAL F :=
    { ambientColor := ⟨0.1, 0.1, 0.1⟩, ambientStrength := 0.3
      diffuseColor := ⟨0.4, 0.4, 0.5⟩, specularColor := ⟨0.2, 0.2, 0.4⟩
      shininess := 2.0, tag := "Mousepad" }
  { s with
    m_objectMaterials := s.m_objectMaterials ++
      [plasticMaterial, metalMaterial, cementMaterial, woodMaterial, glassMaterial,
        clayMaterial, MousepadMaterial] }

/-- The method `SceneManager::SetupSceneLights()`; it calls through
`m_pShaderManager` without testing it. -/
def SetupSceneLights (s : SceneManager F) : Except Fault (SceneManager F) :=
  match s.m_pShaderManager with
  | none => .error .nullDereference
  | some sm =>
    -- light 0, left warm wash
    let sm := sm.setVec3ValueXYZ "lightSources[0].position" (-6.8) 1.10 (-4.25)
    let sm := sm.setVec3ValueXYZ "lightSources[0].diffuseColor" 1.0 0.20 0.0
    let sm := sm.setVec3ValueXYZ "lightSources[0].specularColor" 1.0 0.5 0.0
    let sm := sm.setVec3ValueXYZ "lightSources[0].ambientColor" 0.15 0.05 0.0
    let sm := sm.setFloatValue "lightSources[0].focalStrength" 10.0
    let sm := sm.setFloatValue "lightSources[0].specularIntensity" 0.12
    -- light 1, top white halo
    let sm := sm.setVec3ValueXYZ "lightSources[1].position" 0.0 10.2 (-4.8)
    let sm := sm.setVec3ValueXYZ "lightSources[1].ambientColor" 0.10 0.12 0.16
    let sm := sm.setVec3ValueXYZ "lightSources[1].diffuseColor" 0.70 0.74 0.82
    let sm := sm.setVec3ValueXYZ "lightSources[1].specularColor" 1.0 1.0 1.0
    let sm := sm.setFloatValue "lightSources[1].focalStrength" 30.0
    let sm := sm.setFloatValue "lightSources[1].specularIntensity" 0.65
    -- light 2, right/back white fill
    let sm := sm.setVec3ValueXYZ "lightSources[2].position" 16.5 3.5 3.5
    let sm := sm.setVec3ValueXYZ "lightSources[2].ambientColor" 0.20 0.21 0.23
    let sm := sm.setVec3ValueXYZ "lightSources[2].diffuseColor" 0.58 0.62 0.68
    let sm := sm.setVec3ValueXYZ "lightSources[2].specularColor" 0.62 0.66 0.72
    let sm := sm.setFloatValue "lightSources[2].focalStrength" 110.0
    let sm := sm.setFloatValue "lightSources[2].specularIntensity" 0.82
    -- light 3, under-desk strip
    let sm := sm.setVec3ValueXYZ "lightSources[3].position" 0.0 (-0.32) (-6.20)
    let sm := sm.setVec3ValueXYZ "lightSources[3].ambientColor" 0.01 0.001 0.001
    let sm := sm.setVec3ValueXYZ "lightSources[3].diffuseColor" 0.80 0.28 0.02
    let sm := sm.setVec3ValueXYZ "lightSources[3].specularColor" 0.80 0.28 0.02
    let sm := sm.setFloatValue "lightSources[3].focalStrength" 8.0
    let sm := sm.setFloatValue "lightSources[3].specularIntensity" 0.05
    -- enable the use of lighting in the shader
    let sm := sm.setBoolValue "bUseLighting" true
    .ok { s with m_pShaderManager := some sm }

/-- The nine mesh loading calls at the end of `PrepareScene`. -/
def loadMeshes (s : SceneManager F) : SceneManager F :=
  { s with
    m_basicMeshes :=
      { s.m_basicMeshes with
        loaded := s.m_basicMeshes.loaded ++
          ["Box", "Plane", "Cylinder", "Cone", "Prism", "Pyramid4", "Sphere",
            "TaperedCylinder", "Torus"] } }

/-- The method `SceneManager::PrepareScene()`. -/
def PrepareScene (env : Env) (s : SceneManager F) : Except Fault (SceneManager F) :=
  match LoadSceneTextures env s with
  | .error e => .error e
  | .ok s1 =>
    match SetupSceneLights (DefineObjectMaterials s1) with
    | .error e => .error e
    | .ok s2 => .ok (loadMeshes s2)

/-! ### Shader state for the next draw command -/

/-- The global `g_ColorValueName`. -/
def g_ColorValueName : String := "objectColor"

/-- The global `g_TextureValueName`. -/
def g_TextureValueName : String := "objectTexture"

/-- The global `g_UseTextureName`. -/
def g_UseTextureName : String := "bUseTexture"

/-- The method `SceneManager::SetShaderColor(red, green, blue, alpha)`; the
`false` passed to `setIntValue` is the integer 0. -/
def SetShaderColor (s : SceneManager F) (redColorValue greenColorValue blueColorValue
    alphaValue : F) : SceneManager F :=
  match s.m_pShaderManager with
  | some sm =>
    { s with
      m_pShaderManager := some ((sm.setIntValue g_UseTextureName 0).setVec4Value
        g_ColorValueName redColorValue greenColorValue blueColorValue alphaValue) }
  | none => s

/-- The method `SceneManager::SetShaderTexture(textureTag)`; the `true` passed to
`setIntValue` is the integer 1. -/
def SetShaderTexture (s : SceneManager F) (textureTag : String) :
    Except Fault (SceneManager F) :=
  match s.m_pShaderManager with
  | some sm =>
    let sm1 := sm.setIntValue g_UseTextureName 1
    match FindTextureSlot s textureTag with
    | .error e => .error e
    | .ok textureID =>
      .ok { s with
        m_pShaderManager := some (sm1.setSampler2DValue g_TextureValueName textureID) }
  | none => .ok s

/-- The method `SceneManager::SetTextureUVScale(u, v)`. -/
def SetTextureUVScale (s : SceneManager F) (u v : F) : SceneManager F :=
  match s.m_pShaderManager with
  | some sm => { s with m_pShaderManager := some (sm.setVec2Value "UVscale" u v) }
  | none => s

/-! ### Rendering the scene -/

/-- The calls a render routine makes that the claims about `RenderScene` speak
of. -/
inductive Event where
  /-- a render routine was entered -/
  | enter (routine : String)
  | setTransformations
  | setShaderTexture (textureTag : String)
  | setShaderColor
  | setTextureUVScale
  | setShaderMaterial (materialTag : String)
  /-- a draw call of `m_basicMeshes`, with the arguments written at the call -/
  | draw (mesh : String) (args : List Bool)
  deriving DecidableEq, Repr

/-- A run of the render routines: the scene manager, and the log of the calls
made so far.  The log is not a member of the class; it records, in order, the
calls the claims about rendering are about. -/
structure Run (F : Type) where
  scene : SceneManager F
  calls : List Event

namespace Run

/-- Entry into the render routine `routine`. -/
def enter (r : Run F) (routine : String) : Except Fault (Run F) :=
  .ok { r with calls := r.calls ++ [.enter routine] }

/-- The call `SetTransformations(...)`. -/
def SetTransformations (r : Run F) (g : GlmMath F) (scaleXYZ : vec3 F)
    (XrotationDegrees YrotationDegrees ZrotationDegrees : F) (positionXYZ : vec3 F) :
    Except Fault (Run F) :=
  .ok { scene := SceneManager.SetTransformations g r.scene scaleXYZ XrotationDegrees
          YrotationDegrees ZrotationDegrees positionXYZ
        calls := r.calls ++ [.setTransformations] }

/-- The call `SetShaderColor(...)`. -/
def SetShaderColor (r : Run F) (redColorValue greenColorValue blueColorValue
    alphaValue : F) : Except Fault (Run F) :=
  .ok { scene := SceneManager.SetShaderColor r.scene redColorValue greenColorValue
          blueColorValue alphaValue
        calls := r.calls ++ [.setShaderColor] }

/-- The call `SetShaderTexture(textureTag)`. -/
def SetShaderTexture (r : Run F) (textureTag : String) : Except Fault (Run F) :=
  match SceneManager.SetShaderTexture r.scene textureTag with
  | .error e => .error e
  | .ok s => .ok { scene := s, calls := r.calls ++ [.setShaderTexture textureTag] }

/-- The call `SetTextureUVScale(u, v)`. -/
def SetTextureUVScale (r : Run F) (u v : F) : Except Fault (Run F) :=
  .ok { scene := SceneManager.SetTextureUVScale r.scene u v
        calls := r.calls ++ [.setTextureUVScale] }

/-- The call `SetShaderMaterial(materialTag)`; `material` is the indeterminate
value of the callee's local. -/
def SetShaderMaterial (r : Run F) (material : OBJECT_MATERIAL F) (materialTag : String) :
    Except Fault (Run F) :=
  match SceneManager.SetShaderMaterial r.scene materialTag material with
  | .error e => .error e
  | .ok s => .ok { scene := s, calls := r.calls ++ [.setShaderMaterial materialTag] }

/-- A draw call `m_basicMeshes->Draw...Mesh(args)`. -/
def draw (r : Run F) (mesh : String) (args : List Bool) : Except Fault (Run F) :=
  .ok { scene :=
          { r.scene with
            m_basicMeshes :=
              { r.scene.m_basicMeshes with drawn := r.scene.m_basicMeshes.drawn ++ [mesh] } }
        calls := r.calls ++ [.draw mesh args] }

end Run

/-- The method `SceneManager::RenderTable()`. -/
def RenderTable (g : GlmMath F) (material : OBJECT_MATERIAL F) (r : Run F) :
    Except Fault (Run F) := do
  let r ← r.enter "RenderTable"
  let r ← r.SetTransformations g ⟨20.0, 0.3, 9.4⟩ 0.0 0.0 0.0 ⟨0.0, 0.0, -0.30⟩
  let r ← r.SetShaderTexture "desk"
  let r ← r.SetTextureUVScale 1 1
  let r ← r.SetShaderMaterial material "wood"
  r.draw "Box" []

/-- The method `SceneManager::RenderBackdrop()`. -/
def RenderBackdrop (g : GlmMath F) (material : OBJECT_MATERIAL F) (r : Run F) :
    Except Fault (Run F) := do
  let r ← r.enter "RenderBackdrop"
  let r ← r.SetTransformations g ⟨13.0, 0.3, 8.0⟩ 90.0 0.0 0.0 ⟨0.0, 3.0, -5.5⟩
  let r ← r.SetShaderTexture "wall"
  let r ← r.SetShaderMaterial material "cement"
  let r ← r.SetTextureUVScale 2 1
  r.draw "Plane" []

/-- The method `SceneManager::RenderLamp()`. -/
def RenderLamp (g : GlmMath F) (material : OBJECT_MATERIAL F) (r : Run F) :
    Except Fault (Run F) := do
  let r ← r.enter "RenderLamp"
  -- lamp body, sphere
  let r ← r.SetTransformations g ⟨1.8, 0.7, 1.8⟩ 0.0 0.0 0.0 ⟨-7.0, 0.9, -3.0⟩
  let r ← r.SetShaderTexture "lamp"
  let r ← r.SetTextureUVScale 1.0 1.0
  let r ← r.SetShaderMaterial material "glass"
  let r ← r.draw "Sphere" []
  -- lamp pole, cylinder
  let r ← r.SetTransformations g ⟨1.4, 0.9, 1.4⟩ 0.0 0.0 0.0 ⟨-7.0, 0.0, -3.0⟩
  let r ← r.SetShaderColor 0.3 0.2 0.0 1.0
  let r ← r.SetShaderMaterial material "plastic"
  let r ← r.draw "Cylinder" []
  -- lamp switch, box
  let r ← r.SetTransformations g ⟨0.35, 0.15, 0.25⟩ 0.0 25.0 0.0 ⟨-6.5, 0.3, -1.8⟩
  let r ← r.SetShaderColor 0.8 0.8 0.8 1.0
  let r ← r.SetShaderMaterial material "plastic"
  r.draw "Box" []

/-- The method `SceneManager::RenderMug()`. -/
def RenderMug (g : GlmMath F) (material : OBJECT_MATERIAL F) (r : Run F) :
    Except Fault (Run F) := do
  let r ← r.enter "RenderMug"
  -- mug body, the side of the cylinder
  let r ← r.SetTransformations g ⟨0.5, 1.5, 0.5⟩ 0.0 0.0 0.0 ⟨6.0, 0.1, 3.0⟩
  let r ← r.SetShaderTexture "mugbody"
  let r ← r.SetShaderMaterial material "clay"
  let r ← r.SetTextureUVScale 1.0 5.0
  let r ← r.draw "Cylinder" [false, false, true]
  -- the top of the same cylinder
  let r ← r.SetShaderTexture "coffee"
  let r ← r.SetTextureUVScale 0.7 0.7
  let r ← r.draw "Cylinder" [true, false, false]
  -- mug handle, torus
  let r ← r.SetTransformations g ⟨0.4, 0.5, 0.3⟩ 0.0 0.0 90.0 ⟨6.7, 0.8, 3.0⟩
  let r ← r.SetShaderTexture "mugholder"
  let r ← r.SetShaderMaterial material "clay"
  let r ← r.SetTextureUVScale 5.0 1.0
  r.draw "Torus" []

/-- The method `SceneManager::RenderLaptop()`. -/
def RenderLaptop (g : GlmMath F) (material : OBJECT_MATERIAL F) (r : Run F) :
    Except Fault (Run F) := do
  let r ← r.enter "RenderLaptop"
  -- the closed laptop, box
  let r ← r.SetTransformations g ⟨2.75, 2.0, 0.06⟩ 0.0 0.0 0.0 ⟨5.0, 1.3, -4.5⟩
  let r ← r.SetShaderColor 0.3 0.3 0.3 1.0
  let r ← r.SetShaderMaterial material "metal"
  let r ← r.draw "Box" []
  -- the plane with the logo
  let r ← r.SetTransformations g ⟨1.38, 0.0, 1.0⟩ 90.0 180.0 0.0 ⟨5.0, 1.3, -4.465⟩
  let r ← r.SetShaderTexture "macbook"
  let r ← r.SetShaderMaterial material "metal"
  let r ← r.SetTextureUVScale 1.0 0.95
  let r ← r.draw "Plane" []
  -- holder, bottom stand
  let r ← r.SetTransformations g ⟨1.1, 0.1, 0.5⟩ 0.0 0.0 0.0 ⟨5.0, 0.3, -4.5⟩
  let r ← r.SetShaderColor 0.5 0.5 0.5 1.0
  let r ← r.SetShaderMaterial material "plastic"
  let r ← r.draw "Box" []
  -- holder, vertical stand
  let r ← r.SetTransformations g ⟨1.1, 0.4, 0.2⟩ 0.0 0.0 0.0 ⟨5.0, 0.5, -4.5⟩
  let r ← r.SetShaderColor 0.5 0.5 0.5 1.0
  let r ← r.SetShaderMaterial material "plastic"
  r.draw "Box" []

/-- The method `SceneManager::RenderMonitor()`. -/
def RenderMonitor (g : GlmMath F) (material : OBJECT_MATERIAL F) (r : Run F) :
    Except Fault (Run F) := do
  let r ← r.enter "RenderMonitor"
  -- screen box
  let r ← r.SetTransformations g ⟨8.5, 4.5, 0.1⟩ 0.0 0.0 0.0 ⟨0.0, 3.7, -4.2⟩
  let r ← r.SetShaderColor 0.1 0.1 0.1 1.0
  let r ← r.SetShaderMaterial material "metal"
  let r ← r.draw "Box" []
  -- screen plane
  let r ← r.SetTransformations g ⟨4.1, 4.5, 2.1⟩ 90.0 0.0 0.0 ⟨0.0, 3.7, -4.14⟩
  let r ← r.SetShaderTexture "screen"
  let r ← r.SetShaderMaterial material "glass"
  let r ← r.SetTextureUVScale 1.0 1.0
  let r ← r.draw "Plane" []
  -- stand, pole
  let r ← r.SetTransformations g ⟨0.2, 2.5, 0.2⟩ 0.0 0.0 0.0 ⟨1.1, 0.3, -4.5⟩
  let r ← r.SetShaderColor 0.5 0.5 0.5 1.0
  let r ← r.SetShaderMaterial material "metal"
  let r ← r.draw "Cylinder" []
  -- stand, base plate
  let r ← r.SetTransformations g ⟨1.0, 0.1, 1.0⟩ 0.0 0.0 0.0 ⟨1.1, 0.2, -4.5⟩
  let r ← r.SetShaderColor 0.5 0.5 0.5 1.0
  let r ← r.SetShaderMaterial material "metal"
  let r ← r.draw "Box" []
  -- light bar
  let r ← r.SetTransformations g ⟨6.0, 0.1, 0.3⟩ 0.0 0.0 0.0 ⟨0.0, 6.2, -4.17⟩
  let r ← r.SetShaderColor 0.2 0.2 0.2 1.0
  let r ← r.SetShaderMaterial material "plastic"
  let r ← r.draw "Box" []
  -- light bar, small centre box
  let r ← r.SetTransformations g ⟨0.6, 0.3, 0.2⟩ 0.0 0.0 0.0 ⟨0.0, 6.10, -4.2⟩
  let r ← r.SetShaderMaterial material "plastic"
  let r ← r.SetShaderColor 0.2 0.2 0.2 1.0
  r.draw "Box" []

/-- The method `SceneManager::RenderMouse()`. -/
def RenderMouse (g : GlmMath F) (material : OBJECT_MATERIAL F) (r : Run F) :
    Except Fault (Run F) := do
  let r ← r.enter "RenderMouse"
  let r ← r.SetTransformations g ⟨0.5, 0.4, 0.8⟩ 0.0 180.0 0.0 ⟨3.5, 0.4, 2.3⟩
  let r ← r.SetShaderTexture "mouse"
  let r ← r.SetTextureUVScale 1.0 1.0
  let r ← r.SetShaderMaterial material "plastic"
  r.draw "Sphere" []

/-- The method `SceneManager::RenderKeyboard()`. -/
def RenderKeyboard (g : GlmMath F) (material : OBJECT_MATERIAL F) (r : Run F) :
    Except Fault (Run F) := do
  let r ← r.enter "RenderKeyboard"
  -- keyboard plane
  let r ← r.SetTransformations g ⟨1.9, 0.0, 0.7⟩ 0.0 0.0 0.0 ⟨0.0, 0.46, 2.3⟩
  let r ← r.SetShaderTexture "keyboard"
  let r ← r.SetShaderMaterial material "plastic"
  let r ← r.SetTextureUVScale 1.0 1.0
  let r ← r.draw "Plane" []
  -- keyboard base
  let r ← r.SetTransformations g ⟨4.0, 0.2, 1.5⟩ 0.0 0.0 0.0 ⟨0.0, 0.35, 2.3⟩
  let r ← r.SetShaderColor 0.1 0.1 0.1 1.0
  let r ← r.SetShaderMaterial material "plastic"
  r.draw "Box" []

/-- The method `SceneManager::RenderMousepad()`. -/
def RenderMousepad (g : GlmMath F) (material : OBJECT_MATERIAL F) (r : Run F) :
    Except Fault (Run F) := do
  let r ← r.enter "RenderMousepad"
  let r ← r.SetTransformations g ⟨9.5, 0.030, 4.0⟩ 0.0 0.0 0.0 ⟨0.0, 0.2, 2.0⟩
  let r ← r.SetShaderMaterial material "Mousepad"
  let r ← r.SetShaderTexture "mousepad"
  r.draw "Box" []

/-- The method `SceneManager::RenderScene()`. -/
def RenderScene (g : GlmMath F) (material : OBJECT_MATERIAL F) (r : Run F) :
    Except Fault (Run F) := do
  let r ← RenderTable g material r
  let r ← RenderLamp g material r
  let r ← RenderBackdrop g material r
  let r ← RenderLaptop g material r
  let r ← RenderMonitor g material r
  let r ← RenderKeyboard g material r
  let r ← RenderMouse g material r
  let r ← RenderMug g material r
  RenderMousepad g material r

/-! ### What the log of a run says about its draw calls -/

/-- The name of the routine an `enter` event records. -/
def Event.routine : Event → Option String
  | .enter routine => some routine
  | _ => none

/-- The mesh a `draw` event records. -/
def Event.drawnMesh : Event → Option String
  | .draw mesh _ => some mesh
  | _ => none

/-- How one draw call was prepared: the mesh and arguments of the call, and
whether a `SetTransformations` call, a texture or colour selection and a
`SetShaderMaterial` call were made since the previous draw call or, for the
first draw of a routine, since the routine was entered. -/
structure DrawPreparation where
  mesh : String
  args : List Bool
  transformSet : Bool
  textureOrColorSet : Bool
  materialSet : Bool
  deriving DecidableEq, Repr

/-- The preparations of the draw calls of a log, in order; the three flags are
the calls seen since the last `draw` or `enter` event. -/
def drawPreparations : List Event → Bool → Bool → Bool → List DrawPreparation
  | [], _, _, _ => []
  | .enter _ :: es, _, _, _ => drawPreparations es false false false
  | .setTransformations :: es, _, c, m => drawPreparations es true c m
  | .setShaderTexture _ :: es, t, _, m => drawPreparations es t true m
  | .setShaderColor :: es, t, _, m => drawPreparations es t true m
  | .setTextureUVScale :: es, t, c, m => drawPreparations es t c m
  | .setShaderMaterial _ :: es, t, c, _ => drawPreparations es t c true
  | .draw mesh args :: es, t, c, m =>
    ⟨mesh, args, t, c, m⟩ :: drawPreparations es false false false

/-- The state of a run in which the render routines are free of undefined
behaviour: `SetShaderMaterial` calls through `m_pShaderManager` only when the
material list is not empty, and `FindTextureSlot` stays inside the table. -/
def Run.Renderable (r : Run F) : Prop :=
  (r.scene.m_pShaderManager.isNone = true → r.scene.m_objectMaterials = []) ∧
    r.scene.m_loadedTextures ≤ 16

/-- The routine `p`, run from any renderable state, returns, leaves a renderable
state, appends exactly the calls `es` to the log, and has issued to
`m_basicMeshes` exactly the draw calls among `es`. -/
def Emits (p : Run F → Except Fault (Run F)) (es : List Event) : Prop :=
  ∀ r : Run F, r.Renderable →
    ∃ r1 : Run F, p r = .ok r1 ∧ r1.Renderable ∧ r1.calls = r.calls ++ es ∧
      r1.scene.m_basicMeshes.drawn =
        r.scene.m_basicMeshes.drawn ++ es.filterMap Event.drawnMesh

end Transform

end SceneManager

/-! ## Concrete states used to evaluate the code -/

/-- A scene manager over the rationals with the textures "desk" (name 7) and
"mug" (name 9) registered. -/
def deskMugScene : SceneManager ℚ :=
  { SceneManager.new none ⟨2, [], []⟩ with
    m_textureIDs := fun i =>
      if i = 0 then ⟨"desk", 7⟩ else if i = 1 then ⟨"mug", 9⟩ else ⟨"/0", 4294967295⟩
    m_loadedTextures := 2 }

/-- An environment in which every image file decodes as a 3-channel image and the
driver hands out the texture names 1, 2, 3, ... -/
def allDecodeEnv : Env :=
  { stbi_load := fun _ => some ⟨64, 64, 3⟩
    glGenTextures := fun n => n + 1 }

/-- A freshly constructed scene manager with a shader manager that has no
uniform set yet. -/
def freshScene : SceneManager ℚ :=
  SceneManager.new (some ⟨fun _ => none⟩) ⟨0, [], []⟩

/-- The eleven textures of `LoadSceneTextures` and five more, loaded into a
freshly constructed scene manager: all sixteen slots are registered. -/
def sixteenTextures : Except Fault (SceneManager ℚ) :=
  SceneManager.LoadSceneTextures allDecodeEnv freshScene
    >>= SceneManager.loadTexture allDecodeEnv "Debug/textures/extra12.jpg" "extra12"
    >>= SceneManager.loadTexture allDecodeEnv "Debug/textures/extra13.jpg" "extra13"
    >>= SceneManager.loadTexture allDecodeEnv "Debug/textures/extra14.jpg" "extra14"
    >>= SceneManager.loadTexture allDecodeEnv "Debug/textures/extra15.jpg" "extra15"
    >>= SceneManager.loadTexture allDecodeEnv "Debug/textures/extra16.jpg" "extra16"

/-- An environment in which every image file decodes and the driver hands out the
largest texture name, `4294967295`. -/
def lastNameEnv : Env :=
  { stbi_load := fun _ => some ⟨64, 64, 3⟩
    glGenTextures := fun _ => 4294967295 }

/-- An environment in which every image file decodes and the driver hands out the
texture name `3000000000`, which is above `2^31`. -/
def highNameEnv : Env :=
  { stbi_load := fun _ => some ⟨64, 64, 3⟩
    glGenTextures := fun _ => 3000000000 }

/-- The scene manager after `DefineObjectMaterials` on a fresh object: the seven
materials of the scene are defined. -/
def materialScene : SceneManager ℚ :=
  SceneManager.DefineObjectMaterials freshScene

/-- A material value standing for the contents of an unassigned local. -/
def blankMaterial : OBJECT_MATERIAL ℚ :=
  { ambientColor := ⟨0, 0, 0⟩, ambientStrength := 0, diffuseColor := ⟨0, 0, 0⟩
    specularColor := ⟨0, 0, 0⟩, shininess := 0, tag := "" }

/-- An environment in which `Debug/textures/missing.jpg` cannot be decoded,
`Debug/textures/gray.png` decodes with one channel, and every other file
decodes with four channels. -/
def mixedEnv : Env :=
  { stbi_load := fun f =>
      if f = "Debug/textures/missing.jpg" then none
      else if f = "Debug/textures/gray.png" then some ⟨8, 8, 1⟩
      else some ⟨8, 8, 4⟩
    glGenTextures := fun n => 2 * n + 10 }

/-- Stand-ins over the rationals for the library functions `cos`, `sin`,
`radians` and `inversesqrt`; they are exact at the angle zero and on unit
vectors.  The calls a routine makes do not depend on them. -/
def flatMath : GlmMath ℚ :=
  { cos := fun _ => 1, sin := fun _ => 0, radians := fun d => d, inversesqrt := fun _ => 1 }

/-- The scene manager after `PrepareScene` on a fresh object, in an environment
where every texture file decodes: eleven textures, seven materials. -/
def preparedScene : Except Fault (SceneManager ℚ) :=
  SceneManager.PrepareScene allDecodeEnv freshScene

/-- The table with "desk" and "mug" registered, with a shader manager that has no
uniform set yet. -/
def shadedDeskMugScene : SceneManager ℚ :=
  { deskMugScene with m_pShaderManager := some ⟨fun _ => none⟩ }

namespace SceneManager

variable {F : Type}

/-! ## The two lookup loops -/

theorem textureAt_fin (s : SceneManager F) (i : Fin 16) :
    s.textureAt (i : Int) = .ok (s.m_textureIDs i) := by
  have h : (0 : Int) ≤ (i : Int) ∧ ((i : Nat) : Int) < 16 := by
    constructor <;> omega
  simp [textureAt, h]

/-- Both lookup loops, started at `index` with nothing found yet and enough
fuel, stop at the first registered entry at or after `index` whose tag is `tag`;
without such an entry they return the values their locals started with. -/
theorem find_loops_spec (s : SceneManager F) (tag : String)
    (hm : s.m_loadedTextures ≤ 16) (slot0 id0 : Int) :
    ∀ (fuel : Nat) (index : Int), 0 ≤ index →
      (s.m_loadedTextures - index).toNat + 2 ≤ fuel →
      ((∀ i : Fin 16, index ≤ (i : Int) → (i : Int) < s.m_loadedTextures →
            (s.m_textureIDs i).tag ≠ tag) ∧
          FindTextureSlot.loop s tag fuel index false slot0 = .ok slot0 ∧
          FindTextureID.loop s tag fuel index false id0 = .ok id0) ∨
      (∃ i : Fin 16, index ≤ (i : Int) ∧ (i : Int) < s.m_loadedTextures ∧
          (s.m_textureIDs i).tag = tag ∧
          (∀ j : Fin 16, index ≤ (j : Int) → j < i → (s.m_textureIDs j).tag ≠ tag) ∧
          FindTextureSlot.loop s tag fuel index false slot0 = .ok (i : Int) ∧
          FindTextureID.loop s tag fuel index false id0 = .ok (toInt32 (s.m_textureIDs i).ID)) := by
  intro fuel
  induction fuel with
  | zero => intro index _ h; omega
  | succ fuel ih =>
    intro index h0 hfuel
    by_cases hlt : index < s.m_loadedTextures
    · -- the entry at `index` is read
      obtain ⟨k, hk⟩ : ∃ k : Fin 16, (k : Int) = index :=
        ⟨⟨index.toNat, by omega⟩, Int.toNat_of_nonneg h0⟩
      subst hk
      by_cases htag : (s.m_textureIDs k).tag = tag
      · right
        refine ⟨k, le_refl _, hlt, htag, ?_, ?_, ?_⟩
        · intro j hj hjk
          have hjk2 : (j : Nat) < (k : Nat) := hjk
          omega
        · cases fuel with
          | zero => omega
          | succ fuel =>
            simp [FindTextureSlot.loop, hlt, textureAt_fin, htag]
        · cases fuel with
          | zero => omega
          | succ fuel =>
            simp [FindTextureID.loop, hlt, textureAt_fin, htag]
      · have hstep1 : FindTextureSlot.loop s tag (fuel + 1) (k : Int) false slot0
            = FindTextureSlot.loop s tag fuel ((k : Int) + 1) false slot0 := by
          simp [FindTextureSlot.loop, hlt, textureAt_fin, htag]
        have hstep2 : FindTextureID.loop s tag (fuel + 1) (k : Int) false id0
            = FindTextureID.loop s tag fuel ((k : Int) + 1) false id0 := by
          simp [FindTextureID.loop, hlt, textureAt_fin, htag]
        rw [hstep1, hstep2]
        rcases ih ((k : Int) + 1) (by omega) (by omega) with ⟨hno, h1, h2⟩ | ⟨i, hi, him, hit, hmin, h1, h2⟩
        · left
          refine ⟨?_, h1, h2⟩
          intro i hi him
          by_cases hik : i = k
          · subst hik; exact htag
          · exact hno i (by
              have : (i : Nat) ≠ (k : Nat) := fun h => hik (Fin.ext h)
              omega) him
        · right
          refine ⟨i, by omega, him, hit, ?_, h1, h2⟩
          intro j hj hji
          by_cases hjk : j = k
          · subst hjk; exact htag
          · exact hmin j (by
              have : (j : Nat) ≠ (k : Nat) := fun h => hjk (Fin.ext h)
              omega) hji
    · left
      refine ⟨?_, ?_, ?_⟩
      · intro i hi him; omega
      · simp [FindTextureSlot.loop, hlt]
      · simp [FindTextureID.loop, hlt]

/-- C1. With at most sixteen registered textures, `FindTextureSlot(tag)` returns
the smallest index below `m_loadedTextures` whose stored tag equals `tag`, and
`-1` when no entry below `m_loadedTextures` carries the tag; an entry at or
beyond `m_loadedTextures` is never the answer. -/
theorem FindTextureSlot_first_match (s : SceneManager F) (tag : String)
    (hm : s.m_loadedTextures ≤ 16) :
    (FindTextureSlot s tag = .ok (-1) ∧
        ∀ i : Fin 16, (i : Int) < s.m_loadedTextures → (s.m_textureIDs i).tag ≠ tag) ∨
    (∃ i : Fin 16, FindTextureSlot s tag = .ok (i : Int) ∧
        (i : Int) < s.m_loadedTextures ∧ (s.m_textureIDs i).tag = tag ∧
        ∀ j : Fin 16, j < i → (s.m_textureIDs j).tag ≠ tag) := by
  rcases find_loops_spec s tag hm (-1) (-1) (s.m_loadedTextures.toNat + 2) 0 (le_refl _)
      (by omega) with ⟨hno, h1, _⟩ | ⟨i, _, him, hit, hmin, h1, _⟩
  · left
    exact ⟨h1, fun i hi => hno i (by omega) hi⟩
  · right
    exact ⟨i, h1, him, hit, fun j hj => hmin j (by omega) hj⟩

/-- Witness for C1: the table with "desk" and "mug" registered, looked up for
"mug". -/
theorem FindTextureSlot_first_match_witness :
    deskMugScene.m_loadedTextures ≤ 16 ∧
    ((FindTextureSlot deskMugScene "mug" = .ok (-1) ∧
        ∀ i : Fin 16, (i : Int) < deskMugScene.m_loadedTextures →
          (deskMugScene.m_textureIDs i).tag ≠ "mug") ∨
    (∃ i : Fin 16, FindTextureSlot deskMugScene "mug" = .ok (i : Int) ∧
        (i : Int) < deskMugScene.m_loadedTextures ∧
        (deskMugScene.m_textureIDs i).tag = "mug" ∧
        ∀ j : Fin 16, j < i → (deskMugScene.m_textureIDs j).tag ≠ "mug")) :=
  ⟨by decide, FindTextureSlot_first_match deskMugScene "mug" (by decide)⟩

/-- An unsigned 32-bit name reads as the `int` `-1` exactly when it is
`4294967295`. -/
theorem toInt32_eq_neg_one (n : Nat) : toInt32 n = -1 ↔ n % 4294967296 = 4294967295 := by
  unfold toInt32
  split <;> omega

/-- C2 (counterexample). A freshly constructed scene manager loads the texture
"desk" while the driver hands out the name `4294967295`: the name is stored in
slot 0, `FindTextureSlot("desk")` returns 0, and `FindTextureID("desk")`
returns `-1`, the name converted to `int`.  So `FindTextureID` returns `-1`
although `FindTextureSlot` does not, and the value returned is not the stored
ID. -/
theorem FindTextureID_minus_one_not_iff_slot_minus_one :
    (CreateGLTexture lastNameEnv freshScene "Debug/textures/woodesk.jpg" "desk").map
      (fun p => (p.1, (p.2.m_textureIDs 0).ID, FindTextureSlot p.2 "desk",
        FindTextureID p.2 "desk"))
      = .ok (true, 4294967295, .ok 0, .ok (-1)) := by
  decide

/-- C2 (amended). With at most sixteen registered textures, either both lookups
return `-1`, or `FindTextureSlot` returns a slot `i` and `FindTextureID` returns
the ID stored at slot `i` converted from unsigned 32-bit to `int`; when no
registered entry stores the name `4294967295`, `FindTextureID` returns `-1`
exactly when `FindTextureSlot` returns `-1`. -/
theorem FindTextureID_eq_ID_at_slot (s : SceneManager F) (tag : String)
    (hm : s.m_loadedTextures ≤ 16) :
    ((FindTextureSlot s tag = .ok (-1) ∧ FindTextureID s tag = .ok (-1)) ∨
      (∃ i : Fin 16, FindTextureSlot s tag = .ok (i : Int) ∧
        FindTextureID s tag = .ok (toInt32 (s.m_textureIDs i).ID))) ∧
    ((∀ i : Fin 16, (i : Int) < s.m_loadedTextures →
        (s.m_textureIDs i).ID % 4294967296 ≠ 4294967295) →
      (FindTextureID s tag = .ok (-1) ↔ FindTextureSlot s tag = .ok (-1))) := by
  rcases find_loops_spec s tag hm (-1) (-1) (s.m_loadedTextures.toNat + 2) 0 (le_refl _)
      (by omega) with ⟨_, h1, h2⟩ | ⟨i, _, him, _, _, h1, h2⟩
  · exact ⟨Or.inl ⟨h1, h2⟩, fun _ => ⟨fun _ => h1, fun _ => h2⟩⟩
  · refine ⟨Or.inr ⟨i, h1, h2⟩, fun hid => ?_⟩
    have hne : toInt32 (s.m_textureIDs i).ID ≠ -1 :=
      fun h => hid i him ((toInt32_eq_neg_one _).mp h)
    have hi0 : ((i : Nat) : Int) ≠ -1 := by omega
    unfold FindTextureSlot FindTextureID at *
    rw [h1, h2]
    constructor
    · intro h
      exact absurd (Except.ok.inj h) hne
    · intro h
      exact absurd (Except.ok.inj h) hi0

/-- Witness for C2 (amended): the table with "desk" and "mug" registered, looked
up for the unregistered tag "lamp". -/
theorem FindTextureID_eq_ID_at_slot_witness :
    deskMugScene.m_loadedTextures ≤ 16 ∧
    (∀ i : Fin 16, (i : Int) < deskMugScene.m_loadedTextures →
      (deskMugScene.m_textureIDs i).ID % 4294967296 ≠ 4294967295) ∧
    (FindTextureID deskMugScene "lamp" = .ok (-1) ↔
      FindTextureSlot deskMugScene "lamp" = .ok (-1)) :=
  ⟨by decide, by decide,
    (FindTextureID_eq_ID_at_slot deskMugScene "lamp" (by decide)).2 (by decide)⟩

/-! ## Registering a texture -/

/-- The state `CreateGLTexture` leaves after registering `tag` with the texture
name `id` in slot `i`. -/
theorem CreateGLTexture_ok (env : Env) (s : SceneManager F) (filename tag : String)
    (image : Image) (himg : env.stbi_load filename = some image)
    (hch : image.colorChannels = 3 ∨ image.colorChannels = 4)
    (h0 : 0 ≤ s.m_loadedTextures) (h16 : s.m_loadedTextures < 16) :
    CreateGLTexture env s filename tag = .ok (true,
      { s with
        gl := { s.gl with generated := s.gl.generated + 1 }
        m_textureIDs := Function.update s.m_textureIDs ⟨s.m_loadedTextures.toNat, by omega⟩
          ⟨tag, env.glGenTextures s.gl.generated % 4294967296⟩
        m_loadedTextures := s.m_loadedTextures + 1 }) := by
  have hb : 0 ≤ s.m_loadedTextures ∧ s.m_loadedTextures < 16 := ⟨h0, h16⟩
  simp [CreateGLTexture, himg, hch, setTextureID, setTextureTag, hb]

/-- C3 (the code at the failing input). After the eleven textures of
`LoadSceneTextures` and five more, all loaded into a freshly constructed scene
manager, sixteen textures are registered; the next `CreateGLTexture`, whose
image decodes with 3 channels, does not store the texture in a slot of the
table and return `true`: it writes `m_textureIDs[16]`, outside the table. -/
theorem CreateGLTexture_full_table_out_of_bounds :
    allDecodeEnv.stbi_load "Debug/textures/extra17.jpg" = some ⟨64, 64, 3⟩ ∧
    sixteenTextures.map (fun s => s.m_loadedTextures) = .ok 16 ∧
    (sixteenTextures >>= fun s =>
        CreateGLTexture allDecodeEnv s "Debug/textures/extra17.jpg" "extra17").map
      (fun p => p.1) = .error .outOfBounds := by
  refine ⟨rfl, ?_, ?_⟩ <;> decide

/-- Below capacity the code does what is said of a successful load: when the
image decodes with 3 or 4 colour channels and fewer than sixteen textures are
registered, `CreateGLTexture` returns `true`, stores the generated texture name
together with `tag` at the index equal to the previous `m_loadedTextures`,
increases `m_loadedTextures` by one and leaves every other slot unchanged. -/
theorem CreateGLTexture_registers_in_next_slot (env : Env) (s : SceneManager F)
    (filename tag : String) (image : Image)
    (himg : env.stbi_load filename = some image)
    (hch : image.colorChannels = 3 ∨ image.colorChannels = 4)
    (h0 : 0 ≤ s.m_loadedTextures) (h16 : s.m_loadedTextures < 16) :
    ∃ (s1 : SceneManager F) (i : Fin 16),
      CreateGLTexture env s filename tag = .ok (true, s1) ∧
      (i : Int) = s.m_loadedTextures ∧
      s1.m_textureIDs i = ⟨tag, env.glGenTextures s.gl.generated % 4294967296⟩ ∧
      s1.m_loadedTextures = s.m_loadedTextures + 1 ∧
      ∀ j : Fin 16, j ≠ i → s1.m_textureIDs j = s.m_textureIDs j := by
  refine ⟨_, ⟨s.m_loadedTextures.toNat, by omega⟩,
    CreateGLTexture_ok env s filename tag image himg hch h0 h16, ?_, ?_, rfl, ?_⟩
  · exact Int.toNat_of_nonneg h0
  · simp
  · intro j hj
    simp [Function.update_noteq hj]

/-- A load below capacity: the first texture of the scene loaded into a freshly
constructed scene manager. -/
theorem CreateGLTexture_registers_in_next_slot_witness :
    allDecodeEnv.stbi_load "Debug/textures/woodesk.jpg" = some ⟨64, 64, 3⟩ ∧
    (0 : Int) ≤ freshScene.m_loadedTextures ∧ freshScene.m_loadedTextures < 16 ∧
    ∃ (s1 : SceneManager ℚ) (i : Fin 16),
      CreateGLTexture allDecodeEnv freshScene "Debug/textures/woodesk.jpg" "desk"
        = .ok (true, s1) ∧
      (i : Int) = freshScene.m_loadedTextures ∧
      s1.m_textureIDs i =
        ⟨"desk", allDecodeEnv.glGenTextures freshScene.gl.generated % 4294967296⟩ ∧
      s1.m_loadedTextures = freshScene.m_loadedTextures + 1 ∧
      ∀ j : Fin 16, j ≠ i → s1.m_textureIDs j = freshScene.m_textureIDs j :=
  ⟨rfl, by decide, by decide,
    CreateGLTexture_registers_in_next_slot allDecodeEnv freshScene
      "Debug/textures/woodesk.jpg" "desk" ⟨64, 64, 3⟩ rfl (by decide) (by decide) (by decide)⟩

/-- C4. `CreateGLTexture` returns `false` exactly when the image file fails to
decode or decodes with a colour-channel count other than 3 or 4, and then the
texture table and `m_loadedTextures` are the ones from before the call. -/
theorem CreateGLTexture_false_iff (env : Env) (s : SceneManager F)
    (filename tag : String) :
    ((∃ s1, CreateGLTexture env s filename tag = .ok (false, s1)) ↔
      (env.stbi_load filename = none ∨
        ∃ image, env.stbi_load filename = some image ∧
          ¬ (image.colorChannels = 3 ∨ image.colorChannels = 4))) ∧
    (∀ s1, CreateGLTexture env s filename tag = .ok (false, s1) →
      s1.m_textureIDs = s.m_textureIDs ∧ s1.m_loadedTextures = s.m_loadedTextures) := by
  cases himg : env.stbi_load filename with
  | none =>
    simp only [CreateGLTexture, himg]
    refine ⟨⟨fun _ => Or.inl trivial, fun _ => ⟨s, rfl⟩⟩, ?_⟩
    intro s1 h
    cases h
    exact ⟨rfl, rfl⟩
  | some image =>
    by_cases hch : image.colorChannels = 3 ∨ image.colorChannels = 4
    · have hno : ∀ s1, CreateGLTexture env s filename tag ≠ .ok (false, s1) := by
        intro s1 h
        simp only [CreateGLTexture, himg, hch, if_true] at h
        split at h
        · cases h
        · split at h
          · cases h
          · cases h
      refine ⟨⟨fun ⟨s1, h⟩ => absurd h (hno s1), ?_⟩, fun s1 h => absurd h (hno s1)⟩
      rintro (h | ⟨im, him, hn⟩)
      · cases h
      · cases him
        exact absurd hch hn
    · simp only [CreateGLTexture, himg, hch, if_false]
      refine ⟨⟨fun _ => Or.inr ⟨image, rfl, hch⟩, fun _ => ⟨_, rfl⟩⟩, ?_⟩
      intro s1 h
      cases h
      exact ⟨rfl, rfl⟩

/-- Witness for C4: a file that cannot be decoded, loaded into the table with
two registered textures. -/
theorem CreateGLTexture_false_iff_witness :
    mixedEnv.stbi_load "Debug/textures/missing.jpg" = none ∧
    ∃ s1 : SceneManager ℚ,
      CreateGLTexture mixedEnv deskMugScene "Debug/textures/missing.jpg" "missing"
        = .ok (false, s1) ∧
      s1.m_textureIDs = deskMugScene.m_textureIDs ∧
      s1.m_loadedTextures = deskMugScene.m_loadedTextures :=
  ⟨rfl,
    ((CreateGLTexture_false_iff mixedEnv deskMugScene "Debug/textures/missing.jpg"
        "missing").1.mpr (Or.inl rfl)).elim
      (fun s1 h => ⟨s1, h,
        (CreateGLTexture_false_iff mixedEnv deskMugScene "Debug/textures/missing.jpg"
          "missing").2 s1 h⟩)⟩

/-! ## Lookup after registration -/

/-- Both lookups are determined by the first registered entry carrying the tag. -/
theorem find_of_first_match (s : SceneManager F) (tag : String)
    (hm : s.m_loadedTextures ≤ 16) (i : Fin 16) (him : (i : Int) < s.m_loadedTextures)
    (hit : (s.m_textureIDs i).tag = tag)
    (hmin : ∀ j : Fin 16, j < i → (s.m_textureIDs j).tag ≠ tag) :
    FindTextureSlot s tag = .ok (i : Int) ∧
      FindTextureID s tag = .ok (toInt32 (s.m_textureIDs i).ID) := by
  rcases find_loops_spec s tag hm (-1) (-1) (s.m_loadedTextures.toNat + 2) 0 (le_refl _)
      (by omega) with ⟨hno, _, _⟩ | ⟨k, _, hkm, hkt, hkmin, h1, h2⟩
  · exact absurd hit (hno i (by omega) him)
  · have hik : k = i := by
      rcases lt_trichotomy k i with h | h | h
      · exact absurd hkt (hmin k h)
      · exact h
      · exact absurd hit (hkmin i (by omega) h)
    subst hik
    exact ⟨h1, h2⟩

/-- Conversion to `int` does not see the reduction modulo `2^32`. -/
theorem toInt32_mod (n : Nat) : toInt32 (n % 4294967296) = toInt32 n := by
  unfold toInt32
  rw [Nat.mod_mod]

/-- A name below `2^31` is converted to `int` unchanged. -/
theorem toInt32_of_lt (n : Nat) (h : n < 2147483648) : toInt32 n = (n : Int) := by
  unfold toInt32
  have h1 : n % 4294967296 = n := Nat.mod_eq_of_lt (by omega)
  rw [h1, if_pos h]

/-- C5 (counterexample). A freshly constructed scene manager loads the texture
"desk" while the driver hands out the name `3000000000`: the load succeeds and
stores the name in slot 0, and `FindTextureID("desk")` returns `-1294967296`,
not the name generated for the texture. -/
theorem FindTextureID_after_load_not_generated_name :
    (CreateGLTexture highNameEnv freshScene "Debug/textures/woodesk.jpg" "desk").map
      (fun p => (p.1, (p.2.m_textureIDs 0).ID, FindTextureID p.2 "desk"))
      = .ok (true, 3000000000, .ok (-1294967296)) := by
  decide

/-- C5 (amended). With fewer than sixteen registered textures and a tag that no
registered entry carries, after a successful `CreateGLTexture(filename, tag)`
the lookup `FindTextureSlot(tag)` returns the previous `m_loadedTextures`,
`FindTextureID(tag)` returns the texture name generated by the call converted
from unsigned 32-bit to `int`, which is the name itself when it is below
`2^31`, and both lookups of every previously registered tag return what they
returned before. -/
theorem CreateGLTexture_then_find (env : Env) (s : SceneManager F)
    (filename tag : String) (image : Image)
    (himg : env.stbi_load filename = some image)
    (hch : image.colorChannels = 3 ∨ image.colorChannels = 4)
    (h0 : 0 ≤ s.m_loadedTextures) (h16 : s.m_loadedTextures < 16)
    (hnew : ∀ i : Fin 16, (i : Int) < s.m_loadedTextures → (s.m_textureIDs i).tag ≠ tag) :
    ∃ s1 : SceneManager F,
      CreateGLTexture env s filename tag = .ok (true, s1) ∧
      FindTextureSlot s1 tag = .ok s.m_loadedTextures ∧
      FindTextureID s1 tag = .ok (toInt32 (env.glGenTextures s.gl.generated)) ∧
      (env.glGenTextures s.gl.generated < 2147483648 →
        FindTextureID s1 tag = .ok (env.glGenTextures s.gl.generated : Int)) ∧
      ∀ tag1 : String,
        (∃ i : Fin 16, (i : Int) < s.m_loadedTextures ∧ (s.m_textureIDs i).tag = tag1) →
        FindTextureSlot s1 tag1 = FindTextureSlot s tag1 ∧
        FindTextureID s1 tag1 = FindTextureID s tag1 := by
  refine ⟨_, CreateGLTexture_ok env s filename tag image himg hch h0 h16, ?_⟩
  set k : Fin 16 := ⟨s.m_loadedTextures.toNat, by omega⟩ with hk
  have hkv : ((k : Nat) : Int) = s.m_loadedTextures := Int.toNat_of_nonneg h0
  set s1 : SceneManager F :=
    { s with
      gl := { s.gl with generated := s.gl.generated + 1 }
      m_textureIDs := Function.update s.m_textureIDs k
        ⟨tag, env.glGenTextures s.gl.generated % 4294967296⟩
      m_loadedTextures := s.m_loadedTextures + 1 } with hs1
  have hm1 : s1.m_loadedTextures ≤ 16 := by
    show s.m_loadedTextures + 1 ≤ 16
    omega
  have hlen : s1.m_loadedTextures = s.m_loadedTextures + 1 := rfl
  have hsame : s1.m_textureIDs k = ⟨tag, env.glGenTextures s.gl.generated % 4294967296⟩ := by
    show Function.update s.m_textureIDs k _ k = _
    simp
  have hother : ∀ j : Fin 16, j ≠ k → s1.m_textureIDs j = s.m_textureIDs j := by
    intro j hj
    show Function.update s.m_textureIDs k _ j = _
    simp [Function.update_noteq hj]
  have hbelow : ∀ j : Fin 16, (j : Int) < s.m_loadedTextures → j ≠ k := by
    intro j hj hjk
    subst hjk
    omega
  have hnewtag := find_of_first_match s1 tag hm1 k (by omega) (by rw [hsame])
    (fun j hj => by
      have hjk : (j : Nat) < (k : Nat) := hj
      have hjm : (j : Int) < s.m_loadedTextures := by omega
      rw [hother j (hbelow j hjm)]
      exact hnew j hjm)
  have hid : FindTextureID s1 tag = .ok (toInt32 (env.glGenTextures s.gl.generated)) := by
    rw [hnewtag.2, hsame, toInt32_mod]
  refine ⟨?_, hid, ?_, ?_⟩
  · rw [hnewtag.1, hkv]
  · intro hlt
    rw [hid, toInt32_of_lt _ hlt]
  · rintro tag1 ⟨i0, hi0, hi0t⟩
    rcases find_loops_spec s tag1 (by omega) (-1) (-1) (s.m_loadedTextures.toNat + 2) 0
        (le_refl _) (by omega) with ⟨hno, _, _⟩ | ⟨i, _, him, hit, himin, h1, h2⟩
    · exact absurd hi0t (hno i0 (by omega) hi0)
    · have hold := find_of_first_match s1 tag1 hm1 i (by omega)
        (by rw [hother i (hbelow i him)]; exact hit)
        (fun j hj => by
          have hji : (j : Nat) < (i : Nat) := hj
          have hjm : (j : Int) < s.m_loadedTextures := by omega
          rw [hother j (hbelow j hjm)]
          exact himin j (by omega) hj)
      have h1s : FindTextureSlot s tag1 = .ok (i : Int) := h1
      have h2s : FindTextureID s tag1 = .ok (toInt32 (s.m_textureIDs i).ID) := h2
      rw [hold.1, hold.2, h1s, h2s, hother i (hbelow i him)]
      exact ⟨rfl, rfl⟩

/-- Witness for C5 (amended): the texture "lamp" loaded into the table that has "desk" and
"mug" registered. -/
theorem CreateGLTexture_then_find_witness :
    mixedEnv.stbi_load "Debug/textures/lamp.jpg" = some ⟨8, 8, 4⟩ ∧
    (0 : Int) ≤ deskMugScene.m_loadedTextures ∧ deskMugScene.m_loadedTextures < 16 ∧
    (∀ i : Fin 16, (i : Int) < deskMugScene.m_loadedTextures →
      (deskMugScene.m_textureIDs i).tag ≠ "lamp") ∧
    ∃ s1 : SceneManager ℚ,
      CreateGLTexture mixedEnv deskMugScene "Debug/textures/lamp.jpg" "lamp" = .ok (true, s1) ∧
      FindTextureSlot s1 "lamp" = .ok deskMugScene.m_loadedTextures ∧
      FindTextureID s1 "lamp"
        = .ok (toInt32 (mixedEnv.glGenTextures deskMugScene.gl.generated)) ∧
      (mixedEnv.glGenTextures deskMugScene.gl.generated < 2147483648 →
        FindTextureID s1 "lamp"
          = .ok (mixedEnv.glGenTextures deskMugScene.gl.generated : Int)) ∧
      ∀ tag1 : String,
        (∃ i : Fin 16, (i : Int) < deskMugScene.m_loadedTextures ∧
          (deskMugScene.m_textureIDs i).tag = tag1) →
        FindTextureSlot s1 tag1 = FindTextureSlot deskMugScene tag1 ∧
        FindTextureID s1 tag1 = FindTextureID deskMugScene tag1 :=
  ⟨rfl, by decide, by decide, by decide,
    CreateGLTexture_then_find mixedEnv deskMugScene "Debug/textures/lamp.jpg" "lamp"
      ⟨8, 8, 4⟩ rfl (by decide) (by decide) (by decide) (by decide)⟩

/-! ## Capacity of the table -/

/-- C6 (the code at the failing input). On a freshly constructed scene manager,
in an environment where every texture file decodes, the first `PrepareScene`
registers eleven textures and `DestroyGLTextures` would reset the count, but a
second `PrepareScene` without it reaches `CreateGLTexture` with sixteen
registered textures and writes `m_textureIDs[16]`, outside the table. -/
theorem PrepareScene_twice_writes_out_of_bounds :
    (PrepareScene allDecodeEnv freshScene).map (fun s => s.m_loadedTextures) = .ok 11 ∧
    ((PrepareScene allDecodeEnv freshScene >>= DestroyGLTextures
        >>= PrepareScene allDecodeEnv).map (fun s => s.m_loadedTextures) = .ok 11) ∧
    ((PrepareScene allDecodeEnv freshScene >>= PrepareScene allDecodeEnv).map
        (fun s => s.m_loadedTextures) = .error .outOfBounds) := by
  refine ⟨?_, ?_, ?_⟩ <;> decide

/-! ## The material list -/

/-- The loop of `FindMaterial`, started at `index` with nothing found yet and
enough fuel, stops at the first entry at or after `index` whose tag is `tag` and
copies its five values; without such an entry `material` is returned as is. -/
theorem FindMaterial.loop_spec (s : SceneManager F) (tag : String)
    (material : OBJECT_MATERIAL F) :
    ∀ (fuel index : Nat), (s.m_objectMaterials.length - index) + 2 ≤ fuel →
      ((∀ (i : Nat) (hi : i < s.m_objectMaterials.length), index ≤ i →
            (s.m_objectMaterials.get ⟨i, hi⟩).tag ≠ tag) ∧
          FindMaterial.loop s tag fuel index false material = .ok material) ∨
      (∃ (i : Nat) (hi : i < s.m_objectMaterials.length), index ≤ i ∧
          (s.m_objectMaterials.get ⟨i, hi⟩).tag = tag ∧
          (∀ (j : Nat) (hj : j < s.m_objectMaterials.length), index ≤ j → j < i →
            (s.m_objectMaterials.get ⟨j, hj⟩).tag ≠ tag) ∧
          FindMaterial.loop s tag fuel index false material = .ok
            { material with
              ambientColor := (s.m_objectMaterials.get ⟨i, hi⟩).ambientColor
              ambientStrength := (s.m_objectMaterials.get ⟨i, hi⟩).ambientStrength
              diffuseColor := (s.m_objectMaterials.get ⟨i, hi⟩).diffuseColor
              specularColor := (s.m_objectMaterials.get ⟨i, hi⟩).specularColor
              shininess := (s.m_objectMaterials.get ⟨i, hi⟩).shininess }) := by
  intro fuel
  induction fuel with
  | zero => intro index h; omega
  | succ fuel ih =>
    intro index hfuel
    by_cases hlt : index < s.m_objectMaterials.length
    · by_cases htag : (s.m_objectMaterials.get ⟨index, hlt⟩).tag = tag
      · right
        refine ⟨index, hlt, le_refl _, htag, ?_, ?_⟩
        · intro j hj h1 h2; omega
        · cases fuel with
          | zero => omega
          | succ fuel =>
            rw [FindMaterial.loop, dif_pos ⟨hlt, rfl⟩]
            simp only [htag, if_true]
            rw [FindMaterial.loop, dif_neg (by simp)]
      · have hstep : FindMaterial.loop s tag (fuel + 1) index false material
            = FindMaterial.loop s tag fuel (index + 1) false material := by
          rw [FindMaterial.loop, dif_pos ⟨hlt, rfl⟩]
          simp only [htag, if_false]
        rw [hstep]
        rcases ih (index + 1) (by omega) with ⟨hno, h1⟩ | ⟨i, hi, hle, hit, hmin, h1⟩
        · left
          refine ⟨?_, h1⟩
          intro i hi hle
          by_cases hii : i = index
          · subst hii; exact htag
          · exact hno i hi (by omega)
        · right
          refine ⟨i, hi, by omega, hit, ?_, h1⟩
          intro j hj hle1 hji
          by_cases hjj : j = index
          · subst hjj; exact htag
          · exact hmin j hj (by omega) hji
    · left
      refine ⟨?_, ?_⟩
      · intro i hi hle; omega
      · rw [FindMaterial.loop, dif_neg (fun h => hlt h.1)]

/-- C7. When some entry of the material list carries the requested tag,
`FindMaterial(tag, material)` returns `true` and `material` then holds the
ambient colour, ambient strength, diffuse colour, specular colour and shininess
of the first such entry in list order.  (The method assigns to no member: the
embedding returns no new state, the material list is the one before the call.) -/
theorem FindMaterial_first_match (s : SceneManager F) (tag : String)
    (material : OBJECT_MATERIAL F)
    (h : ∃ e ∈ s.m_objectMaterials, e.tag = tag) :
    ∃ (i : Nat) (hi : i < s.m_objectMaterials.length) (material1 : OBJECT_MATERIAL F),
      (s.m_objectMaterials.get ⟨i, hi⟩).tag = tag ∧
      (∀ (j : Nat) (hj : j < s.m_objectMaterials.length), j < i →
        (s.m_objectMaterials.get ⟨j, hj⟩).tag ≠ tag) ∧
      FindMaterial s tag material = .ok (true, material1) ∧
      material1.ambientColor = (s.m_objectMaterials.get ⟨i, hi⟩).ambientColor ∧
      material1.ambientStrength = (s.m_objectMaterials.get ⟨i, hi⟩).ambientStrength ∧
      material1.diffuseColor = (s.m_objectMaterials.get ⟨i, hi⟩).diffuseColor ∧
      material1.specularColor = (s.m_objectMaterials.get ⟨i, hi⟩).specularColor ∧
      material1.shininess = (s.m_objectMaterials.get ⟨i, hi⟩).shininess := by
  obtain ⟨e, he, het⟩ := h
  obtain ⟨n, hn⟩ := List.get_of_mem he
  have hlen : s.m_objectMaterials.length ≠ 0 := by
    have := n.isLt
    omega
  rcases FindMaterial.loop_spec s tag material (s.m_objectMaterials.length + 2) 0 (by omega)
    with ⟨hno, _⟩ | ⟨i, hi, _, hit, hmin, hloop⟩
  · exact absurd (by rw [hn]; exact het) (hno n.val n.isLt (Nat.zero_le _))
  · refine ⟨i, hi,
      { material with
        ambientColor := (s.m_objectMaterials.get ⟨i, hi⟩).ambientColor
        ambientStrength := (s.m_objectMaterials.get ⟨i, hi⟩).ambientStrength
        diffuseColor := (s.m_objectMaterials.get ⟨i, hi⟩).diffuseColor
        specularColor := (s.m_objectMaterials.get ⟨i, hi⟩).specularColor
        shininess := (s.m_objectMaterials.get ⟨i, hi⟩).shininess },
      hit, fun j hj hji => hmin j hj (Nat.zero_le _) hji, ?_, rfl, rfl, rfl, rfl, rfl⟩
    rw [FindMaterial, if_neg hlen, hloop]

/-- Witness for C7: the material "wood" looked up among the seven materials of
the scene. -/
theorem FindMaterial_first_match_witness :
    (∃ e ∈ materialScene.m_objectMaterials, e.tag = "wood") ∧
    ∃ (i : Nat) (hi : i < materialScene.m_objectMaterials.length)
      (material1 : OBJECT_MATERIAL ℚ),
      (materialScene.m_objectMaterials.get ⟨i, hi⟩).tag = "wood" ∧
      (∀ (j : Nat) (hj : j < materialScene.m_objectMaterials.length), j < i →
        (materialScene.m_objectMaterials.get ⟨j, hj⟩).tag ≠ "wood") ∧
      FindMaterial materialScene "wood" blankMaterial = .ok (true, material1) ∧
      material1.ambientColor = (materialScene.m_objectMaterials.get ⟨i, hi⟩).ambientColor ∧
      material1.ambientStrength
        = (materialScene.m_objectMaterials.get ⟨i, hi⟩).ambientStrength ∧
      material1.diffuseColor = (materialScene.m_objectMaterials.get ⟨i, hi⟩).diffuseColor ∧
      material1.specularColor = (materialScene.m_objectMaterials.get ⟨i, hi⟩).specularColor ∧
      material1.shininess = (materialScene.m_objectMaterials.get ⟨i, hi⟩).shininess :=
  ⟨by decide, FindMaterial_first_match materialScene "wood" blankMaterial (by decide)⟩

/-- C8 (the code at the failing input). With the seven scene materials defined
and the tag "gold", which none of them carries, `FindMaterial` returns `true`
and leaves `material` as it was, and `SetShaderMaterial` then uploads the
material uniforms, here `material.shininess`, which was not set before. -/
theorem FindMaterial_undefined_tag_returns_true :
    (∀ e ∈ materialScene.m_objectMaterials, e.tag ≠ "gold") ∧
    FindMaterial materialScene "gold" blankMaterial = .ok (true, blankMaterial) ∧
    (materialScene.m_pShaderManager.bind
      (fun sm => sm.uniforms "material.shininess")).isSome = false ∧
    (SetShaderMaterial materialScene "gold" blankMaterial).map
      (fun s => (s.m_pShaderManager.bind
        (fun sm => sm.uniforms "material.shininess")).isSome) = .ok true := by
  refine ⟨?_, ?_, ?_, ?_⟩
  · decide
  · decide
  · decide
  · decide

/-! ## The model matrix -/

section ModelMatrix

variable {F : Type} [Field F]

/-- C9 (amended). Whatever the scale, the angles and the position, the matrix
`SetTransformations` uploads as `model` is `modelView`, and it transforms a
vertex by applying the scale first, then the rotation about Z, then the
rotation about Y, then the rotation about X, and finally the translation: it
is `translation * rotationX * rotationY * rotationZ * scale`. -/
theorem SetTransformations_applies_scale_Z_Y_X_translation (g : GlmMath F)
    (s : SceneManager F) (sm : ShaderManager F) (scaleXYZ : vec3 F)
    (XrotationDegrees YrotationDegrees ZrotationDegrees : F) (positionXYZ : vec3 F) :
    ((SetTransformations g { s with m_pShaderManager := some sm } scaleXYZ
        XrotationDegrees YrotationDegrees ZrotationDegrees positionXYZ).m_pShaderManager.bind
        (fun sm1 => sm1.uniforms "model")) =
      some (.mat4 (SetTransformations.modelView g scaleXYZ XrotationDegrees YrotationDegrees
        ZrotationDegrees positionXYZ)) ∧
    ∀ v : Fin 4 → F,
      (SetTransformations.modelView g scaleXYZ XrotationDegrees YrotationDegrees
          ZrotationDegrees positionXYZ).mulVec v =
        (glm.translate positionXYZ).mulVec
          ((glm.rotate g (g.radians XrotationDegrees) ⟨1, 0, 0⟩).mulVec
            ((glm.rotate g (g.radians YrotationDegrees) ⟨0, 1, 0⟩).mulVec
              ((glm.rotate g (g.radians ZrotationDegrees) ⟨0, 0, 1⟩).mulVec
                ((glm.scale scaleXYZ).mulVec v)))) := by
  refine ⟨?_, ?_⟩
  · simp [SetTransformations, ShaderManager.setMat4Value, ShaderManager.setValue, g_ModelName]
  · intro v
    simp [SetTransformations.modelView, Matrix.mulVec_mulVec, Matrix.mul_assoc]

/-- The rotation about X by a quarter turn, over the reals. -/
theorem rotateX_quarter :
    glm.rotate (⟨Real.cos, Real.sin, fun d => d * (Real.pi / 180),
        fun x => 1 / Real.sqrt x⟩ : GlmMath ℝ) ((90 : ℝ) * (Real.pi / 180)) ⟨1, 0, 0⟩ =
      !![1, 0, 0, 0; 0, 0, -1, 0; 0, 1, 0, 0; 0, 0, 0, 1] := by
  have h : (90 : ℝ) * (Real.pi / 180) = Real.pi / 2 := by ring
  simp [glm.rotate, glm.normalize, h]

/-- The rotation about Z by a quarter turn, over the reals. -/
theorem rotateZ_quarter :
    glm.rotate (⟨Real.cos, Real.sin, fun d => d * (Real.pi / 180),
        fun x => 1 / Real.sqrt x⟩ : GlmMath ℝ) ((90 : ℝ) * (Real.pi / 180)) ⟨0, 0, 1⟩ =
      !![0, -1, 0, 0; 1, 0, 0, 0; 0, 0, 1, 0; 0, 0, 0, 1] := by
  have h : (90 : ℝ) * (Real.pi / 180) = Real.pi / 2 := by ring
  simp [glm.rotate, glm.normalize, h]

/-- The rotation by the angle zero about any of the three axes is the identity,
over the reals. -/
theorem rotate_zero (v : vec3 ℝ) (hv : v.x * v.x + v.y * v.y + v.z * v.z = 1) :
    glm.rotate (⟨Real.cos, Real.sin, fun d => d * (Real.pi / 180),
        fun x => 1 / Real.sqrt x⟩ : GlmMath ℝ) ((0 : ℝ) * (Real.pi / 180)) v = 1 := by
  simp only [glm.rotate, glm.normalize, hv, zero_mul, Real.cos_zero, Real.sin_zero, sub_self,
    Real.sqrt_one, div_one, mul_one, mul_zero, add_zero, sub_zero]
  ext i j
  fin_cases i <;> fin_cases j <;> rfl

/-- C9 (counterexample). Over the reals, with unit scale, no translation and a
quarter turn about both X and Z, the uploaded matrix sends the vertex (1, 0, 0)
to (0, 0, 1): the turn about Z is applied before the turn about X.  Scale, then
X, then Y, then Z, then translation, that is
`translation * rotationZ * rotationY * rotationX * scale`, sends it to
(0, 1, 0). -/
theorem SetTransformations_not_scale_X_Y_Z_translation :
    (SetTransformations.modelView (⟨Real.cos, Real.sin, fun d => d * (Real.pi / 180),
        fun x => 1 / Real.sqrt x⟩ : GlmMath ℝ) ⟨1, 1, 1⟩ 90 0 90 ⟨0, 0, 0⟩).mulVec ![1, 0, 0, 1]
      = ![0, 0, 1, 1] ∧
    (modelMatrixAsSpecified (⟨Real.cos, Real.sin, fun d => d * (Real.pi / 180),
        fun x => 1 / Real.sqrt x⟩ : GlmMath ℝ) ⟨1, 1, 1⟩ 90 0 90 ⟨0, 0, 0⟩).mulVec ![1, 0, 0, 1]
      = ![0, 1, 0, 1] ∧
    SetTransformations.modelView (⟨Real.cos, Real.sin, fun d => d * (Real.pi / 180),
        fun x => 1 / Real.sqrt x⟩ : GlmMath ℝ) ⟨1, 1, 1⟩ 90 0 90 ⟨0, 0, 0⟩
      ≠ modelMatrixAsSpecified (⟨Real.cos, Real.sin, fun d => d * (Real.pi / 180),
        fun x => 1 / Real.sqrt x⟩ : GlmMath ℝ) ⟨1, 1, 1⟩ 90 0 90 ⟨0, 0, 0⟩ := by
  have hx := rotateX_quarter
  have hz := rotateZ_quarter
  have hy := rotate_zero ⟨0, 1, 0⟩ (by norm_num)
  have h1 : (SetTransformations.modelView (⟨Real.cos, Real.sin, fun d => d * (Real.pi / 180),
        fun x => 1 / Real.sqrt x⟩ : GlmMath ℝ) ⟨1, 1, 1⟩ 90 0 90 ⟨0, 0, 0⟩).mulVec ![1, 0, 0, 1]
      = ![0, 0, 1, 1] := by
    simp only [SetTransformations.modelView, hx, hy, hz]
    ext i
    fin_cases i <;>
      simp [glm.translate, glm.scale, Matrix.mulVec, Matrix.mul_apply, Matrix.dotProduct,
        Fin.sum_univ_succ]
  have h2 : (modelMatrixAsSpecified (⟨Real.cos, Real.sin, fun d => d * (Real.pi / 180),
        fun x => 1 / Real.sqrt x⟩ : GlmMath ℝ) ⟨1, 1, 1⟩ 90 0 90 ⟨0, 0, 0⟩).mulVec ![1, 0, 0, 1]
      = ![0, 1, 0, 1] := by
    simp only [modelMatrixAsSpecified, hx, hy, hz]
    ext i
    fin_cases i <;>
      simp [glm.translate, glm.scale, Matrix.mulVec, Matrix.mul_apply, Matrix.dotProduct,
        Fin.sum_univ_succ]
  refine ⟨h1, h2, fun h => ?_⟩
  rw [h, h2] at h1
  have := congrFun h1 1
  simp at this

/-- The rotation about X over the reals, in closed form. -/
theorem rotateX_real (a : ℝ) :
    glm.rotate (⟨Real.cos, Real.sin, fun d => d * (Real.pi / 180),
        fun x => 1 / Real.sqrt x⟩ : GlmMath ℝ) a ⟨1, 0, 0⟩ =
      !![1, 0, 0, 0;
         0, Real.cos a, -Real.sin a, 0;
         0, Real.sin a, Real.cos a, 0;
         0, 0, 0, 1] := by
  simp [glm.rotate, glm.normalize]

/-- The rotation about Y over the reals, in closed form. -/
theorem rotateY_real (a : ℝ) :
    glm.rotate (⟨Real.cos, Real.sin, fun d => d * (Real.pi / 180),
        fun x => 1 / Real.sqrt x⟩ : GlmMath ℝ) a ⟨0, 1, 0⟩ =
      !![Real.cos a, 0, Real.sin a, 0;
         0, 1, 0, 0;
         -Real.sin a, 0, Real.cos a, 0;
         0, 0, 0, 1] := by
  simp [glm.rotate, glm.normalize]

/-- The rotation about Z over the reals, in closed form. -/
theorem rotateZ_real (a : ℝ) :
    glm.rotate (⟨Real.cos, Real.sin, fun d => d * (Real.pi / 180),
        fun x => 1 / Real.sqrt x⟩ : GlmMath ℝ) a ⟨0, 0, 1⟩ =
      !![Real.cos a, -Real.sin a, 0, 0;
         Real.sin a, Real.cos a, 0, 0;
         0, 0, 1, 0;
         0, 0, 0, 1] := by
  simp [glm.rotate, glm.normalize]

/-- The product of two 4x4 matrices, entry by entry. -/
theorem mul4 {R : Type} [CommRing R]
    (a00 a01 a02 a03 a10 a11 a12 a13 a20 a21 a22 a23 a30 a31 a32 a33
     b00 b01 b02 b03 b10 b11 b12 b13 b20 b21 b22 b23 b30 b31 b32 b33 : R) :
    (!![a00, a01, a02, a03; a10, a11, a12, a13; a20, a21, a22, a23; a30, a31, a32, a33] *
      !![b00, b01, b02, b03; b10, b11, b12, b13; b20, b21, b22, b23; b30, b31, b32, b33]
        : Matrix (Fin 4) (Fin 4) R) =
    !![a00 * b00 + a01 * b10 + a02 * b20 + a03 * b30,
       a00 * b01 + a01 * b11 + a02 * b21 + a03 * b31,
       a00 * b02 + a01 * b12 + a02 * b22 + a03 * b32,
       a00 * b03 + a01 * b13 + a02 * b23 + a03 * b33;
       a10 * b00 + a11 * b10 + a12 * b20 + a13 * b30,
       a10 * b01 + a11 * b11 + a12 * b21 + a13 * b31,
       a10 * b02 + a11 * b12 + a12 * b22 + a13 * b32,
       a10 * b03 + a11 * b13 + a12 * b23 + a13 * b33;
       a20 * b00 + a21 * b10 + a22 * b20 + a23 * b30,
       a20 * b01 + a21 * b11 + a22 * b21 + a23 * b31,
       a20 * b02 + a21 * b12 + a22 * b22 + a23 * b32,
       a20 * b03 + a21 * b13 + a22 * b23 + a23 * b33;
       a30 * b00 + a31 * b10 + a32 * b20 + a33 * b30,
       a30 * b01 + a31 * b11 + a32 * b21 + a33 * b31,
       a30 * b02 + a31 * b12 + a32 * b22 + a33 * b32,
       a30 * b03 + a31 * b13 + a32 * b23 + a33 * b33] := by
  ext i j
  fin_cases i <;> fin_cases j <;>
    simp [Matrix.mul_apply, Fin.sum_univ_succ] <;> ring

/-- The product `translation * rotationX * rotationY * rotationZ * scale` of
matrices in closed form, entry by entry. -/
theorem trs_product {R : Type} [CommRing R] (ca sa cb sb cc sc sx sy sz px py pz : R) :
    (!![1, 0, 0, px; 0, 1, 0, py; 0, 0, 1, pz; 0, 0, 0, 1] *
      !![1, 0, 0, 0; 0, ca, -sa, 0; 0, sa, ca, 0; 0, 0, 0, 1] *
      !![cb, 0, sb, 0; 0, 1, 0, 0; -sb, 0, cb, 0; 0, 0, 0, 1] *
      !![cc, -sc, 0, 0; sc, cc, 0, 0; 0, 0, 1, 0; 0, 0, 0, 1] *
      !![sx, 0, 0, 0; 0, sy, 0, 0; 0, 0, sz, 0; 0, 0, 0, 1] : Matrix (Fin 4) (Fin 4) R) =
    !![cb * cc * sx, -(cb * sc) * sy, sb * sz, px;
       (sa * sb * cc + ca * sc) * sx, (ca * cc - sa * sb * sc) * sy, -(sa * cb) * sz, py;
       (sa * sc - ca * sb * cc) * sx, (ca * sb * sc + sa * cc) * sy, ca * cb * sz, pz;
       0, 0, 0, 1] := by
  simp only [mul4]
  ext i j
  fin_cases i <;> fin_cases j <;> simp <;> ring

/-- The upper-left 3x3 block of a 4x4 matrix given entry by entry. -/
theorem block3 {R : Type} (a b c d e f g h i p q r u v w x : R) :
    (!![a, b, c, p; d, e, f, q; g, h, i, r; u, v, w, x] : Matrix (Fin 4) (Fin 4) R).submatrix
      Fin.castSucc Fin.castSucc = !![a, b, c; d, e, f; g, h, i] := by
  ext m n
  fin_cases m <;> fin_cases n <;> rfl

/-- The matrix built by `SetTransformations` over the reals, entry by entry. -/
theorem modelView_real (sx sy sz xd yd zd px py pz : ℝ) :
    SetTransformations.modelView (⟨Real.cos, Real.sin, fun d => d * (Real.pi / 180),
        fun x => 1 / Real.sqrt x⟩ : GlmMath ℝ) ⟨sx, sy, sz⟩ xd yd zd ⟨px, py, pz⟩ =
    !![Real.cos (yd * (Real.pi / 180)) * Real.cos (zd * (Real.pi / 180)) * sx,
        -(Real.cos (yd * (Real.pi / 180)) * Real.sin (zd * (Real.pi / 180))) * sy,
        Real.sin (yd * (Real.pi / 180)) * sz, px;
       (Real.sin (xd * (Real.pi / 180)) * Real.sin (yd * (Real.pi / 180)) *
          Real.cos (zd * (Real.pi / 180)) +
          Real.cos (xd * (Real.pi / 180)) * Real.sin (zd * (Real.pi / 180))) * sx,
        (Real.cos (xd * (Real.pi / 180)) * Real.cos (zd * (Real.pi / 180)) -
          Real.sin (xd * (Real.pi / 180)) * Real.sin (yd * (Real.pi / 180)) *
          Real.sin (zd * (Real.pi / 180))) * sy,
        -(Real.sin (xd * (Real.pi / 180)) * Real.cos (yd * (Real.pi / 180))) * sz, py;
       (Real.sin (xd * (Real.pi / 180)) * Real.sin (zd * (Real.pi / 180)) -
          Real.cos (xd * (Real.pi / 180)) * Real.sin (yd * (Real.pi / 180)) *
          Real.cos (zd * (Real.pi / 180))) * sx,
        (Real.cos (xd * (Real.pi / 180)) * Real.sin (yd * (Real.pi / 180)) *
          Real.sin (zd * (Real.pi / 180)) +
          Real.sin (xd * (Real.pi / 180)) * Real.cos (zd * (Real.pi / 180))) * sy,
        Real.cos (xd * (Real.pi / 180)) * Real.cos (yd * (Real.pi / 180)) * sz, pz;
       0, 0, 0, 1] := by
  simp only [SetTransformations.modelView, rotateX_real, rotateY_real, rotateZ_real,
    glm.translate, glm.scale]
  exact trs_product _ _ _ _ _ _ _ _ _ _ _ _

/-- C10. Over the reals the matrix built by `SetTransformations` has TRS form for
every input: its upper-left 3x3 block is the product of the rotations about X,
Y and Z times `diag(scaleX, scaleY, scaleZ)`, its last column is
`(posX, posY, posZ, 1)` and its last row is `(0, 0, 0, 1)`; the local origin is
mapped to the position, and with the three angles zero the vertex `(x, y, z)`
is mapped to `(scaleX * x + posX, scaleY * y + posY, scaleZ * z + posZ)`. -/
theorem modelView_has_TRS_form (sx sy sz xd yd zd px py pz : ℝ) :
    ((SetTransformations.modelView (⟨Real.cos, Real.sin, fun d => d * (Real.pi / 180),
          fun x => 1 / Real.sqrt x⟩ : GlmMath ℝ) ⟨sx, sy, sz⟩ xd yd zd ⟨px, py, pz⟩).submatrix
        Fin.castSucc Fin.castSucc =
      !![1, 0, 0;
         0, Real.cos (xd * (Real.pi / 180)), -Real.sin (xd * (Real.pi / 180));
         0, Real.sin (xd * (Real.pi / 180)), Real.cos (xd * (Real.pi / 180))] *
      !![Real.cos (yd * (Real.pi / 180)), 0, Real.sin (yd * (Real.pi / 180));
         0, 1, 0;
         -Real.sin (yd * (Real.pi / 180)), 0, Real.cos (yd * (Real.pi / 180))] *
      !![Real.cos (zd * (Real.pi / 180)), -Real.sin (zd * (Real.pi / 180)), 0;
         Real.sin (zd * (Real.pi / 180)), Real.cos (zd * (Real.pi / 180)), 0;
         0, 0, 1] *
      Matrix.diagonal ![sx, sy, sz]) ∧
    ((fun i => SetTransformations.modelView (⟨Real.cos, Real.sin,
          fun d => d * (Real.pi / 180), fun x => 1 / Real.sqrt x⟩ : GlmMath ℝ)
          ⟨sx, sy, sz⟩ xd yd zd ⟨px, py, pz⟩ i 3) = ![px, py, pz, 1]) ∧
    ((fun j => SetTransformations.modelView (⟨Real.cos, Real.sin,
          fun d => d * (Real.pi / 180), fun x => 1 / Real.sqrt x⟩ : GlmMath ℝ)
          ⟨sx, sy, sz⟩ xd yd zd ⟨px, py, pz⟩ 3 j) = ![0, 0, 0, 1]) ∧
    ((SetTransformations.modelView (⟨Real.cos, Real.sin, fun d => d * (Real.pi / 180),
          fun x => 1 / Real.sqrt x⟩ : GlmMath ℝ) ⟨sx, sy, sz⟩ xd yd zd ⟨px, py, pz⟩).mulVec
        ![0, 0, 0, 1] = ![px, py, pz, 1]) ∧
    ∀ x y z : ℝ,
      (SetTransformations.modelView (⟨Real.cos, Real.sin, fun d => d * (Real.pi / 180),
          fun x => 1 / Real.sqrt x⟩ : GlmMath ℝ) ⟨sx, sy, sz⟩ 0 0 0 ⟨px, py, pz⟩).mulVec
        ![x, y, z, 1] = ![sx * x + px, sy * y + py, sz * z + pz, 1] := by
  refine ⟨?_, ?_, ?_, ?_, ?_⟩
  · rw [modelView_real, block3]
    ext i j
    fin_cases i <;> fin_cases j <;>
      simp [Matrix.mul_apply, Fin.sum_univ_succ, Matrix.diagonal, -mul_eq_mul_right_iff,
        -mul_eq_mul_left_iff] <;> ring
  · rw [modelView_real]
    ext i
    fin_cases i <;> rfl
  · rw [modelView_real]
    ext j
    fin_cases j <;> rfl
  · rw [modelView_real]
    ext i
    fin_cases i <;> simp [Matrix.mulVec, Matrix.dotProduct, Fin.sum_univ_succ]
  · intro x y z
    rw [modelView_real]
    ext i
    fin_cases i <;> simp [Matrix.mulVec, Matrix.dotProduct, Fin.sum_univ_succ]

end ModelMatrix

/-! ## Rendering -/

section Rendering

variable {F : Type}

/-- `FindTextureSlot` returns a value on every table with at most sixteen
registered textures. -/
theorem FindTextureSlot_returns (s : SceneManager F) (tag : String)
    (hm : s.m_loadedTextures ≤ 16) : ∃ slot : Int, FindTextureSlot s tag = .ok slot := by
  rcases find_loops_spec s tag hm (-1) (-1) (s.m_loadedTextures.toNat + 2) 0 (le_refl _)
      (by omega) with ⟨_, h1, _⟩ | ⟨i, _, _, _, _, h1, _⟩
  · exact ⟨_, h1⟩
  · exact ⟨_, h1⟩

/-- `FindMaterial` returns a value on every material list. -/
theorem FindMaterial_returns (s : SceneManager F) (tag : String)
    (material : OBJECT_MATERIAL F) :
    ∃ (b : Bool) (material1 : OBJECT_MATERIAL F),
      FindMaterial s tag material = .ok (b, material1) := by
  by_cases hlen : s.m_objectMaterials.length = 0
  · exact ⟨false, material, by rw [FindMaterial, if_pos hlen]⟩
  · rcases FindMaterial.loop_spec s tag material (s.m_objectMaterials.length + 2) 0
        (by omega) with ⟨_, hloop⟩ | ⟨i, hi, _, _, _, hloop⟩
    · exact ⟨true, _, by rw [FindMaterial, if_neg hlen, hloop]⟩
    · exact ⟨true, _, by rw [FindMaterial, if_neg hlen, hloop]⟩

theorem Emits.of_eq {p : Run F → Except Fault (Run F)} {es fs : List Event}
    (h : Emits p es) (he : es = fs) : Emits p fs := he ▸ h

theorem Emits.bind {p q : Run F → Except Fault (Run F)} {es fs : List Event}
    (hp : Emits p es) (hq : Emits q fs) : Emits (fun r => p r >>= q) (es ++ fs) := by
  intro r hr
  obtain ⟨r1, h1, hr1, hc1, hd1⟩ := hp r hr
  obtain ⟨r2, h2, hr2, hc2, hd2⟩ := hq r1 hr1
  refine ⟨r2, ?_, hr2, ?_, ?_⟩
  · show (p r >>= q) = _
    rw [h1]
    exact h2
  · rw [hc2, hc1, List.append_assoc]
  · rw [hd2, hd1, List.filterMap_append, List.append_assoc]

theorem emits_enter (routine : String) :
    Emits (fun r : Run F => r.enter routine) [.enter routine] := by
  intro r hr
  exact ⟨_, rfl, hr, rfl, by simp [Run.enter, Event.drawnMesh]⟩

theorem SetTransformations_meshes [Field F] (g : GlmMath F) (s : SceneManager F)
    (scaleXYZ : vec3 F) (xd yd zd : F) (positionXYZ : vec3 F) :
    (SetTransformations g s scaleXYZ xd yd zd positionXYZ).m_basicMeshes = s.m_basicMeshes := by
  unfold SetTransformations
  cases s.m_pShaderManager <;> rfl

theorem SetShaderColor_meshes (s : SceneManager F) (red green blue alpha : F) :
    (SetShaderColor s red green blue alpha).m_basicMeshes = s.m_basicMeshes := by
  unfold SetShaderColor
  cases s.m_pShaderManager <;> rfl

theorem SetTextureUVScale_meshes (s : SceneManager F) (u v : F) :
    (SetTextureUVScale s u v).m_basicMeshes = s.m_basicMeshes := by
  unfold SetTextureUVScale
  cases s.m_pShaderManager <;> rfl

theorem emits_SetTransformations [Field F] (g : GlmMath F) (scaleXYZ : vec3 F) (xd yd zd : F)
    (positionXYZ : vec3 F) :
    Emits (fun r : Run F => r.SetTransformations g scaleXYZ xd yd zd positionXYZ)
      [.setTransformations] := by
  intro r hr
  refine ⟨_, rfl, ?_, rfl, ?_⟩
  · obtain ⟨h1, h2⟩ := hr
    cases hsm : r.scene.m_pShaderManager with
    | none =>
      simp only [Run.Renderable, SceneManager.SetTransformations, hsm] at h1 ⊢
      exact ⟨h1, h2⟩
    | some sm =>
      simp only [Run.Renderable, SceneManager.SetTransformations, hsm]
      exact ⟨fun h => by simp at h, h2⟩
  · simp [SetTransformations_meshes, Event.drawnMesh]

theorem emits_SetShaderColor (red green blue alpha : F) :
    Emits (fun r : Run F => r.SetShaderColor red green blue alpha) [.setShaderColor] := by
  intro r hr
  refine ⟨_, rfl, ?_, rfl, ?_⟩
  · obtain ⟨h1, h2⟩ := hr
    cases hsm : r.scene.m_pShaderManager with
    | none =>
      simp only [Run.Renderable, SceneManager.SetShaderColor, hsm] at h1 ⊢
      exact ⟨h1, h2⟩
    | some sm =>
      simp only [Run.Renderable, SceneManager.SetShaderColor, hsm]
      exact ⟨fun h => by simp at h, h2⟩
  · simp [SetShaderColor_meshes, Event.drawnMesh]

theorem emits_SetTextureUVScale (u v : F) :
    Emits (fun r : Run F => r.SetTextureUVScale u v) [.setTextureUVScale] := by
  intro r hr
  refine ⟨_, rfl, ?_, rfl, ?_⟩
  · obtain ⟨h1, h2⟩ := hr
    cases hsm : r.scene.m_pShaderManager with
    | none =>
      simp only [Run.Renderable, SceneManager.SetTextureUVScale, hsm] at h1 ⊢
      exact ⟨h1, h2⟩
    | some sm =>
      simp only [Run.Renderable, SceneManager.SetTextureUVScale, hsm]
      exact ⟨fun h => by simp at h, h2⟩
  · simp [SetTextureUVScale_meshes, Event.drawnMesh]

theorem emits_SetShaderTexture (textureTag : String) :
    Emits (fun r : Run F => r.SetShaderTexture textureTag)
      [.setShaderTexture textureTag] := by
  intro r hr
  obtain ⟨h1, h2⟩ := hr
  cases hsm : r.scene.m_pShaderManager with
  | none =>
    refine ⟨⟨r.scene, r.calls ++ [.setShaderTexture textureTag]⟩, ?_, ⟨h1, h2⟩, rfl,
      by simp [Event.drawnMesh]⟩
    simp only [Run.SetShaderTexture, SceneManager.SetShaderTexture, hsm]
  | some sm =>
    obtain ⟨slot, hslot⟩ := FindTextureSlot_returns r.scene textureTag h2
    refine ⟨⟨{ r.scene with
        m_pShaderManager := some ((sm.setIntValue g_UseTextureName 1).setSampler2DValue
          g_TextureValueName slot) }, r.calls ++ [.setShaderTexture textureTag]⟩, ?_, ?_, rfl,
      by simp [Event.drawnMesh]⟩
    · simp only [Run.SetShaderTexture, SceneManager.SetShaderTexture, hsm, hslot]
    · exact ⟨fun h => by simp at h, h2⟩

theorem emits_SetShaderMaterial (material : OBJECT_MATERIAL F) (materialTag : String) :
    Emits (fun r : Run F => r.SetShaderMaterial material materialTag)
      [.setShaderMaterial materialTag] := by
  intro r hr
  obtain ⟨h1, h2⟩ := hr
  by_cases hlen : r.scene.m_objectMaterials.length > 0
  · obtain ⟨b, material1, hfind⟩ := FindMaterial_returns r.scene materialTag material
    cases hsm : r.scene.m_pShaderManager with
    | none =>
      have := h1 (by simp [hsm])
      rw [this] at hlen
      simp at hlen
    | some sm =>
      cases b with
      | false =>
        refine ⟨⟨r.scene, r.calls ++ [.setShaderMaterial materialTag]⟩, ?_, ⟨h1, h2⟩, rfl,
          by simp [Event.drawnMesh]⟩
        simp [Run.SetShaderMaterial, SceneManager.SetShaderMaterial, hlen, hfind]
      | true =>
        refine ⟨⟨{ r.scene with
            m_pShaderManager := some
              (((((sm.setVec3Value "material.ambientColor" material1.ambientColor).setFloatValue
                "material.ambientStrength" material1.ambientStrength).setVec3Value
                "material.diffuseColor" material1.diffuseColor).setVec3Value
                "material.specularColor" material1.specularColor).setFloatValue
                "material.shininess" material1.shininess) },
            r.calls ++ [.setShaderMaterial materialTag]⟩, ?_, ?_, rfl,
          by simp [Event.drawnMesh]⟩
        · simp [Run.SetShaderMaterial, SceneManager.SetShaderMaterial, hlen, hfind, hsm]
        · exact ⟨fun h => by simp at h, h2⟩
  · refine ⟨⟨r.scene, r.calls ++ [.setShaderMaterial materialTag]⟩, ?_, ⟨h1, h2⟩, rfl,
      by simp [Event.drawnMesh]⟩
    simp [Run.SetShaderMaterial, SceneManager.SetShaderMaterial, hlen]

theorem emits_draw (mesh : String) (args : List Bool) :
    Emits (fun r : Run F => r.draw mesh args) [.draw mesh args] := by
  intro r hr
  exact ⟨_, rfl, hr, rfl, by simp [Run.draw, Event.drawnMesh]⟩

/-- C11. With a non-null shader manager and at most sixteen registered textures,
`SetShaderTexture(tag)` sets `bUseTexture` to true (the integer 1) and the
sampler `objectTexture` to the slot index `FindTextureSlot(tag)` returns, which
is `-1` when no registered entry carries the tag; every other shader value,
the texture table and `m_loadedTextures` stay as they were. -/
theorem SetShaderTexture_sets_sampler_to_slot (s : SceneManager F) (sm : ShaderManager F)
    (tag : String) (hsm : s.m_pShaderManager = some sm) (hm : s.m_loadedTextures ≤ 16) :
    ∃ (slot : Int) (s1 : SceneManager F) (sm1 : ShaderManager F),
      FindTextureSlot s tag = .ok slot ∧
      SetShaderTexture s tag = .ok s1 ∧
      s1.m_pShaderManager = some sm1 ∧
      sm1.uniforms "bUseTexture" = some (.int 1) ∧
      sm1.uniforms "objectTexture" = some (.sampler2D slot) ∧
      (∀ name : String, name ≠ "bUseTexture" → name ≠ "objectTexture" →
        sm1.uniforms name = sm.uniforms name) ∧
      s1.m_textureIDs = s.m_textureIDs ∧
      s1.m_loadedTextures = s.m_loadedTextures ∧
      ((∀ i : Fin 16, (i : Int) < s.m_loadedTextures → (s.m_textureIDs i).tag ≠ tag) →
        slot = -1) := by
  rcases find_loops_spec s tag hm (-1) (-1) (s.m_loadedTextures.toNat + 2) 0 (le_refl _)
      (by omega) with ⟨_, h1, _⟩ | ⟨i, _, him, hit, _, h1, _⟩
  · have hslot : FindTextureSlot s tag = .ok (-1) := h1
    refine ⟨-1, { s with
        m_pShaderManager := some ((sm.setIntValue g_UseTextureName 1).setSampler2DValue
          g_TextureValueName (-1)) }, _, hslot, ?_, rfl, ?_, ?_, ?_, rfl, rfl, fun _ => rfl⟩
    · simp only [SetShaderTexture, hsm, hslot]
    · simp [ShaderManager.setSampler2DValue, ShaderManager.setIntValue, ShaderManager.setValue,
        g_UseTextureName, g_TextureValueName]
    · simp [ShaderManager.setSampler2DValue, ShaderManager.setValue, g_TextureValueName]
    · intro name hn1 hn2
      simp [ShaderManager.setSampler2DValue, ShaderManager.setIntValue, ShaderManager.setValue,
        g_UseTextureName, g_TextureValueName, hn1, hn2]
  · have hslot : FindTextureSlot s tag = .ok (i : Int) := h1
    refine ⟨(i : Int), { s with
        m_pShaderManager := some ((sm.setIntValue g_UseTextureName 1).setSampler2DValue
          g_TextureValueName (i : Int)) }, _, hslot, ?_, rfl, ?_, ?_, ?_, rfl, rfl,
        fun hno => absurd hit (hno i him)⟩
    · simp only [SetShaderTexture, hsm, hslot]
    · simp [ShaderManager.setSampler2DValue, ShaderManager.setIntValue, ShaderManager.setValue,
        g_UseTextureName, g_TextureValueName]
    · simp [ShaderManager.setSampler2DValue, ShaderManager.setValue, g_TextureValueName]
    · intro name hn1 hn2
      simp [ShaderManager.setSampler2DValue, ShaderManager.setIntValue, ShaderManager.setValue,
        g_UseTextureName, g_TextureValueName, hn1, hn2]

/-- Witness for C11: the table with "desk" (name 7) in slot 0 and "mug" (name 9)
in slot 1, and a shader manager with no uniform set; the tag is "mug". -/
theorem SetShaderTexture_sets_sampler_to_slot_witness :
    shadedDeskMugScene.m_pShaderManager = some ⟨fun _ => none⟩ ∧
    shadedDeskMugScene.m_loadedTextures ≤ 16 ∧
    ∃ (slot : Int) (s1 : SceneManager ℚ) (sm1 : ShaderManager ℚ),
      FindTextureSlot shadedDeskMugScene "mug" = .ok slot ∧
      SetShaderTexture shadedDeskMugScene "mug" = .ok s1 ∧
      s1.m_pShaderManager = some sm1 ∧
      sm1.uniforms "bUseTexture" = some (.int 1) ∧
      sm1.uniforms "objectTexture" = some (.sampler2D slot) ∧
      (∀ name : String, name ≠ "bUseTexture" → name ≠ "objectTexture" →
        sm1.uniforms name = (⟨fun _ => none⟩ : ShaderManager ℚ).uniforms name) ∧
      s1.m_textureIDs = shadedDeskMugScene.m_textureIDs ∧
      s1.m_loadedTextures = shadedDeskMugScene.m_loadedTextures ∧
      ((∀ i : Fin 16, (i : Int) < shadedDeskMugScene.m_loadedTextures →
          (shadedDeskMugScene.m_textureIDs i).tag ≠ "mug") → slot = -1) :=
  ⟨rfl, by decide,
    SetShaderTexture_sets_sampler_to_slot shadedDeskMugScene ⟨fun _ => none⟩ "mug" rfl
      (by decide)⟩

variable [Field F]

theorem RenderTable_emits (g : GlmMath F) (material : OBJECT_MATERIAL F) :
    Emits (RenderTable g material)
      [.enter "RenderTable", .setTransformations, .setShaderTexture "desk",
        .setTextureUVScale, .setShaderMaterial "wood", .draw "Box" []] := by
  unfold RenderTable
  apply Emits.of_eq
  · repeat (first
      | exact emits_enter _ | exact emits_SetTransformations _ _ _ _ _ _
      | exact emits_SetShaderColor _ _ _ _ | exact emits_SetTextureUVScale _ _
      | exact emits_SetShaderTexture _ | exact emits_SetShaderMaterial _ _
      | exact emits_draw _ _ | apply Emits.bind)
  · rfl

theorem RenderBackdrop_emits (g : GlmMath F) (material : OBJECT_MATERIAL F) :
    Emits (RenderBackdrop g material)
      [.enter "RenderBackdrop", .setTransformations, .setShaderTexture "wall",
        .setShaderMaterial "cement", .setTextureUVScale, .draw "Plane" []] := by
  unfold RenderBackdrop
  apply Emits.of_eq
  · repeat (first
      | exact emits_enter _ | exact emits_SetTransformations _ _ _ _ _ _
      | exact emits_SetShaderColor _ _ _ _ | exact emits_SetTextureUVScale _ _
      | exact emits_SetShaderTexture _ | exact emits_SetShaderMaterial _ _
      | exact emits_draw _ _ | apply Emits.bind)
  · rfl

theorem RenderLamp_emits (g : GlmMath F) (material : OBJECT_MATERIAL F) :
    Emits (RenderLamp g material)
      [.enter "RenderLamp", .setTransformations, .setShaderTexture "lamp",
        .setTextureUVScale, .setShaderMaterial "glass", .draw "Sphere" [],
        .setTransformations, .setShaderColor, .setShaderMaterial "plastic",
        .draw "Cylinder" [], .setTransformations, .setShaderColor,
        .setShaderMaterial "plastic", .draw "Box" []] := by
  unfold RenderLamp
  apply Emits.of_eq
  · repeat (first
      | exact emits_enter _ | exact emits_SetTransformations _ _ _ _ _ _
      | exact emits_SetShaderColor _ _ _ _ | exact emits_SetTextureUVScale _ _
      | exact emits_SetShaderTexture _ | exact emits_SetShaderMaterial _ _
      | exact emits_draw _ _ | apply Emits.bind)
  · rfl

theorem RenderMug_emits (g : GlmMath F) (material : OBJECT_MATERIAL F) :
    Emits (RenderMug g material)
      [.enter "RenderMug", .setTransformations, .setShaderTexture "mugbody",
        .setShaderMaterial "clay", .setTextureUVScale,
        .draw "Cylinder" [false, false, true], .setShaderTexture "coffee",
        .setTextureUVScale, .draw "Cylinder" [true, false, false], .setTransformations,
        .setShaderTexture "mugholder", .setShaderMaterial "clay", .setTextureUVScale,
        .draw "Torus" []] := by
  unfold RenderMug
  apply Emits.of_eq
  · repeat (first
      | exact emits_enter _ | exact emits_SetTransformations _ _ _ _ _ _
      | exact emits_SetShaderColor _ _ _ _ | exact emits_SetTextureUVScale _ _
      | exact emits_SetShaderTexture _ | exact emits_SetShaderMaterial _ _
      | exact emits_draw _ _ | apply Emits.bind)
  · rfl

theorem RenderLaptop_emits (g : GlmMath F) (material : OBJECT_MATERIAL F) :
    Emits (RenderLaptop g material)
      [.enter "RenderLaptop", .setTransformations, .setShaderColor,
        .setShaderMaterial "metal", .draw "Box" [], .setTransformations,
        .setShaderTexture "macbook", .setShaderMaterial "metal", .setTextureUVScale,
        .draw "Plane" [], .setTransformations, .setShaderColor,
        .setShaderMaterial "plastic", .draw "Box" [], .setTransformations, .setShaderColor,
        .setShaderMaterial "plastic", .draw "Box" []] := by
  unfold RenderLaptop
  apply Emits.of_eq
  · repeat (first
      | exact emits_enter _ | exact emits_SetTransformations _ _ _ _ _ _
      | exact emits_SetShaderColor _ _ _ _ | exact emits_SetTextureUVScale _ _
      | exact emits_SetShaderTexture _ | exact emits_SetShaderMaterial _ _
      | exact emits_draw _ _ | apply Emits.bind)
  · rfl

theorem RenderMonitor_emits (g : GlmMath F) (material : OBJECT_MATERIAL F) :
    Emits (RenderMonitor g material)
      [.enter "RenderMonitor", .setTransformations, .setShaderColor,
        .setShaderMaterial "metal", .draw "Box" [], .setTransformations,
        .setShaderTexture "screen", .setShaderMaterial "glass", .setTextureUVScale,
        .draw "Plane" [], .setTransformations, .setShaderColor, .setShaderMaterial "metal",
        .draw "Cylinder" [], .setTransformations, .setShaderColor,
        .setShaderMaterial "metal", .draw "Box" [], .setTransformations, .setShaderColor,
        .setShaderMaterial "plastic", .draw "Box" [], .setTransformations,
        .setShaderMaterial "plastic", .setShaderColor, .draw "Box" []] := by
  unfold RenderMonitor
  apply Emits.of_eq
  · repeat (first
      | exact emits_enter _ | exact emits_SetTransformations _ _ _ _ _ _
      | exact emits_SetShaderColor _ _ _ _ | exact emits_SetTextureUVScale _ _
      | exact emits_SetShaderTexture _ | exact emits_SetShaderMaterial _ _
      | exact emits_draw _ _ | apply Emits.bind)
  · rfl

theorem RenderMouse_emits (g : GlmMath F) (material : OBJECT_MATERIAL F) :
    Emits (RenderMouse g material)
      [.enter "RenderMouse", .setTransformations, .setShaderTexture "mouse",
        .setTextureUVScale, .setShaderMaterial "plastic", .draw "Sphere" []] := by
  unfold RenderMouse
  apply Emits.of_eq
  · repeat (first
      | exact emits_enter _ | exact emits_SetTransformations _ _ _ _ _ _
      | exact emits_SetShaderColor _ _ _ _ | exact emits_SetTextureUVScale _ _
      | exact emits_SetShaderTexture _ | exact emits_SetShaderMaterial _ _
      | exact emits_draw _ _ | apply Emits.bind)
  · rfl

theorem RenderKeyboard_emits (g : GlmMath F) (material : OBJECT_MATERIAL F) :
    Emits (RenderKeyboard g material)
      [.enter "RenderKeyboard", .setTransformations, .setShaderTexture "keyboard",
        .setShaderMaterial "plastic", .setTextureUVScale, .draw "Plane" [],
        .setTransformations, .setShaderColor, .setShaderMaterial "plastic", .draw "Box" []] := by
  unfold RenderKeyboard
  apply Emits.of_eq
  · repeat (first
      | exact emits_enter _ | exact emits_SetTransformations _ _ _ _ _ _
      | exact emits_SetShaderColor _ _ _ _ | exact emits_SetTextureUVScale _ _
      | exact emits_SetShaderTexture _ | exact emits_SetShaderMaterial _ _
      | exact emits_draw _ _ | apply Emits.bind)
  · rfl

theorem RenderMousepad_emits (g : GlmMath F) (material : OBJECT_MATERIAL F) :
    Emits (RenderMousepad g material)
      [.enter "RenderMousepad", .setTransformations, .setShaderMaterial "Mousepad",
        .setShaderTexture "mousepad", .draw "Box" []] := by
  unfold RenderMousepad
  apply Emits.of_eq
  · repeat (first
      | exact emits_enter _ | exact emits_SetTransformations _ _ _ _ _ _
      | exact emits_SetShaderColor _ _ _ _ | exact emits_SetTextureUVScale _ _
      | exact emits_SetShaderTexture _ | exact emits_SetShaderMaterial _ _
      | exact emits_draw _ _ | apply Emits.bind)
  · rfl

/-- The calls of one `RenderScene`, in order, routine by routine. -/
theorem RenderScene_emits (g : GlmMath F) (material : OBJECT_MATERIAL F) :
    Emits (RenderScene g material)
       ([.enter "RenderTable", .setTransformations, .setShaderTexture "desk",
         .setTextureUVScale, .setShaderMaterial "wood", .draw "Box" []] ++
        ([.enter "RenderLamp", .setTransformations, .setShaderTexture "lamp",
         .setTextureUVScale, .setShaderMaterial "glass", .draw "Sphere" [],
         .setTransformations, .setShaderColor, .setShaderMaterial "plastic",
         .draw "Cylinder" [], .setTransformations, .setShaderColor,
         .setShaderMaterial "plastic", .draw "Box" []] ++
        ([.enter "RenderBackdrop", .setTransformations, .setShaderTexture "wall",
         .setShaderMaterial "cement", .setTextureUVScale, .draw "Plane" []] ++
        ([.enter "RenderLaptop", .setTransformations, .setShaderColor,
         .setShaderMaterial "metal", .draw "Box" [], .setTransformations,
         .setShaderTexture "macbook", .setShaderMaterial "metal", .setTextureUVScale,
         .draw "Plane" [], .setTransformations, .setShaderColor,
         .setShaderMaterial "plastic", .draw "Box" [], .setTransformations, .setShaderColor,
         .setShaderMaterial "plastic", .draw "Box" []] ++
        ([.enter "RenderMonitor", .setTransformations, .setShaderColor,
         .setShaderMaterial "metal", .draw "Box" [], .setTransformations,
         .setShaderTexture "screen", .setShaderMaterial "glass", .setTextureUVScale,
         .draw "Plane" [], .setTransformations, .setShaderColor, .setShaderMaterial "metal",
         .draw "Cylinder" [], .setTransformations, .setShaderColor,
         .setShaderMaterial "metal", .draw "Box" [], .setTransformations, .setShaderColor,
         .setShaderMaterial "plastic", .draw "Box" [], .setTransformations,
         .setShaderMaterial "plastic", .setShaderColor, .draw "Box" []] ++
        ([.enter "RenderKeyboard", .setTransformations, .setShaderTexture "keyboard",
         .setShaderMaterial "plastic", .setTextureUVScale, .draw "Plane" [],
         .setTransformations, .setShaderColor, .setShaderMaterial "plastic", .draw "Box" []] ++
        ([.enter "RenderMouse", .setTransformations, .setShaderTexture "mouse",
         .setTextureUVScale, .setShaderMaterial "plastic", .draw "Sphere" []] ++
        ([.enter "RenderMug", .setTransformations, .setShaderTexture "mugbody",
         .setShaderMaterial "clay", .setTextureUVScale,
         .draw "Cylinder" [false, false, true], .setShaderTexture "coffee",
         .setTextureUVScale, .draw "Cylinder" [true, false, false], .setTransformations,
         .setShaderTexture "mugholder", .setShaderMaterial "clay", .setTextureUVScale,
         .draw "Torus" []] ++
        ([.enter "RenderMousepad", .setTransformations, .setShaderMaterial "Mousepad",
         .setShaderTexture "mousepad", .draw "Box" []]))))))))) := by
  unfold RenderScene
  exact Emits.bind (RenderTable_emits g material)
    (Emits.bind (RenderLamp_emits g material)
      (Emits.bind (RenderBackdrop_emits g material)
        (Emits.bind (RenderLaptop_emits g material)
          (Emits.bind (RenderMonitor_emits g material)
            (Emits.bind (RenderKeyboard_emits g material)
              (Emits.bind (RenderMouse_emits g material)
                (Emits.bind (RenderMug_emits g material)
                  (RenderMousepad_emits g material))))))))

/-- C12. From a state in which rendering is free of undefined behaviour (a null
shader manager only with an empty material list, at most sixteen registered
textures), `RenderScene` returns, and whatever the state it enters, in this
order, `RenderTable`, `RenderLamp`, `RenderBackdrop`, `RenderLaptop`,
`RenderMonitor`, `RenderKeyboard`, `RenderMouse`, `RenderMug` and
`RenderMousepad`: the routine of each of the eight objects (table, lamp,
laptop, monitor, mug, mouse, keyboard, mousepad) is entered exactly once.  Each
routine renders its object: after its entry and before the next one it issues
its draw calls (table: box; lamp: sphere, cylinder, box; laptop: box, plane,
box, box; monitor: box, plane, cylinder, box, box, box; keyboard: plane, box;
mouse: sphere; mug: cylinder side, cylinder top, torus; mousepad: box), these
twenty-two draw calls reach `m_basicMeshes` in this order, and the calls made
are exactly the ones listed last, routine by routine. -/
theorem RenderScene_renders_each_object_once (g : GlmMath F)
    (material : OBJECT_MATERIAL F) (r : Run F)
    (hsm : r.scene.m_pShaderManager.isNone = true → r.scene.m_objectMaterials = [])
    (hm : r.scene.m_loadedTextures ≤ 16) :
    ∃ (r1 : Run F) (es : List Event),
      RenderScene g material r = .ok r1 ∧ r1.calls = r.calls ++ es ∧
      es.filterMap Event.routine =
        ["RenderTable", "RenderLamp", "RenderBackdrop", "RenderLaptop", "RenderMonitor",
         "RenderKeyboard", "RenderMouse", "RenderMug", "RenderMousepad"] ∧
      (∀ routine ∈
        ["RenderTable", "RenderLamp", "RenderLaptop", "RenderMonitor", "RenderMug",
         "RenderMouse", "RenderKeyboard", "RenderMousepad"],
        (es.filterMap Event.routine).count routine = 1) ∧
      es.filter (fun e => e.routine.isSome || e.drawnMesh.isSome) =
        [.enter "RenderTable", .draw "Box" []] ++
        ([.enter "RenderLamp", .draw "Sphere" [], .draw "Cylinder" [], .draw "Box" []] ++
        ([.enter "RenderBackdrop", .draw "Plane" []] ++
        ([.enter "RenderLaptop", .draw "Box" [], .draw "Plane" [], .draw "Box" [],
         .draw "Box" []] ++
        ([.enter "RenderMonitor", .draw "Box" [], .draw "Plane" [], .draw "Cylinder" [],
         .draw "Box" [], .draw "Box" [], .draw "Box" []] ++
        ([.enter "RenderKeyboard", .draw "Plane" [], .draw "Box" []] ++
        ([.enter "RenderMouse", .draw "Sphere" []] ++
        ([.enter "RenderMug", .draw "Cylinder" [false, false, true],
         .draw "Cylinder" [true, false, false], .draw "Torus" []] ++
        ([.enter "RenderMousepad", .draw "Box" []])))))))) ∧
      r1.scene.m_basicMeshes.drawn = r.scene.m_basicMeshes.drawn ++
        ["Box", "Sphere", "Cylinder", "Box", "Plane", "Box", "Plane", "Box", "Box", "Box",
         "Plane", "Cylinder", "Box", "Box", "Box", "Plane", "Box", "Sphere", "Cylinder",
         "Cylinder", "Torus", "Box"] ∧
      es =
        [.enter "RenderTable", .setTransformations, .setShaderTexture "desk",
         .setTextureUVScale, .setShaderMaterial "wood", .draw "Box" []] ++
        ([.enter "RenderLamp", .setTransformations, .setShaderTexture "lamp",
         .setTextureUVScale, .setShaderMaterial "glass", .draw "Sphere" [],
         .setTransformations, .setShaderColor, .setShaderMaterial "plastic",
         .draw "Cylinder" [], .setTransformations, .setShaderColor,
         .setShaderMaterial "plastic", .draw "Box" []] ++
        ([.enter "RenderBackdrop", .setTransformations, .setShaderTexture "wall",
         .setShaderMaterial "cement", .setTextureUVScale, .draw "Plane" []] ++
        ([.enter "RenderLaptop", .setTransformations, .setShaderColor,
         .setShaderMaterial "metal", .draw "Box" [], .setTransformations,
         .setShaderTexture "macbook", .setShaderMaterial "metal", .setTextureUVScale,
         .draw "Plane" [], .setTransformations, .setShaderColor,
         .setShaderMaterial "plastic", .draw "Box" [], .setTransformations, .setShaderColor,
         .setShaderMaterial "plastic", .draw "Box" []] ++
        ([.enter "RenderMonitor", .setTransformations, .setShaderColor,
         .setShaderMaterial "metal", .draw "Box" [], .setTransformations,
         .setShaderTexture "screen", .setShaderMaterial "glass", .setTextureUVScale,
         .draw "Plane" [], .setTransformations, .setShaderColor, .setShaderMaterial "metal",
         .draw "Cylinder" [], .setTransformations, .setShaderColor,
         .setShaderMaterial "metal", .draw "Box" [], .setTransformations, .setShaderColor,
         .setShaderMaterial "plastic", .draw "Box" [], .setTransformations,
         .setShaderMaterial "plastic", .setShaderColor, .draw "Box" []] ++
        ([.enter "RenderKeyboard", .setTransformations, .setShaderTexture "keyboard",
         .setShaderMaterial "plastic", .setTextureUVScale, .draw "Plane" [],
         .setTransformations, .setShaderColor, .setShaderMaterial "plastic", .draw "Box" []] ++
        ([.enter "RenderMouse", .setTransformations, .setShaderTexture "mouse",
         .setTextureUVScale, .setShaderMaterial "plastic", .draw "Sphere" []] ++
        ([.enter "RenderMug", .setTransformations, .setShaderTexture "mugbody",
         .setShaderMaterial "clay", .setTextureUVScale,
         .draw "Cylinder" [false, false, true], .setShaderTexture "coffee",
         .setTextureUVScale, .draw "Cylinder" [true, false, false], .setTransformations,
         .setShaderTexture "mugholder", .setShaderMaterial "clay", .setTextureUVScale,
         .draw "Torus" []] ++
        ([.enter "RenderMousepad", .setTransformations, .setShaderMaterial "Mousepad",
         .setShaderTexture "mousepad", .draw "Box" []])))))))) := by
  obtain ⟨r1, hrun, _, hcalls, hdrawn⟩ := RenderScene_emits g material r ⟨hsm, hm⟩
  refine ⟨r1, _, hrun, hcalls, rfl, ?_, rfl, ?_, rfl⟩
  · decide
  · rw [hdrawn]
    rfl

/-- Witness for C12: the scene with its seven materials defined, no texture
loaded, nothing drawn yet and an empty log. -/
theorem RenderScene_renders_each_object_once_witness :
    ((materialScene.m_pShaderManager.isNone = true → materialScene.m_objectMaterials = []) ∧
      materialScene.m_loadedTextures ≤ 16) ∧
    ∃ (r1 : Run ℚ) (es : List Event),
      RenderScene flatMath blankMaterial ⟨materialScene, []⟩ = .ok r1 ∧ r1.calls = [] ++ es ∧
      es.filterMap Event.routine =
        ["RenderTable", "RenderLamp", "RenderBackdrop", "RenderLaptop", "RenderMonitor",
         "RenderKeyboard", "RenderMouse", "RenderMug", "RenderMousepad"] ∧
      (∀ routine ∈
        ["RenderTable", "RenderLamp", "RenderLaptop", "RenderMonitor", "RenderMug",
         "RenderMouse", "RenderKeyboard", "RenderMousepad"],
        (es.filterMap Event.routine).count routine = 1) ∧
      es.filter (fun e => e.routine.isSome || e.drawnMesh.isSome) =
        [.enter "RenderTable", .draw "Box" []] ++
        ([.enter "RenderLamp", .draw "Sphere" [], .draw "Cylinder" [], .draw "Box" []] ++
        ([.enter "RenderBackdrop", .draw "Plane" []] ++
        ([.enter "RenderLaptop", .draw "Box" [], .draw "Plane" [], .draw "Box" [],
         .draw "Box" []] ++
        ([.enter "RenderMonitor", .draw "Box" [], .draw "Plane" [], .draw "Cylinder" [],
         .draw "Box" [], .draw "Box" [], .draw "Box" []] ++
        ([.enter "RenderKeyboard", .draw "Plane" [], .draw "Box" []] ++
        ([.enter "RenderMouse", .draw "Sphere" []] ++
        ([.enter "RenderMug", .draw "Cylinder" [false, false, true],
         .draw "Cylinder" [true, false, false], .draw "Torus" []] ++
        ([.enter "RenderMousepad", .draw "Box" []])))))))) ∧
      r1.scene.m_basicMeshes.drawn = materialScene.m_basicMeshes.drawn ++
        ["Box", "Sphere", "Cylinder", "Box", "Plane", "Box", "Plane", "Box", "Box", "Box",
         "Plane", "Cylinder", "Box", "Box", "Box", "Plane", "Box", "Sphere", "Cylinder",
         "Cylinder", "Torus", "Box"] ∧
      es =
        [.enter "RenderTable", .setTransformations, .setShaderTexture "desk",
         .setTextureUVScale, .setShaderMaterial "wood", .draw "Box" []] ++
        ([.enter "RenderLamp", .setTransformations, .setShaderTexture "lamp",
         .setTextureUVScale, .setShaderMaterial "glass", .draw "Sphere" [],
         .setTransformations, .setShaderColor, .setShaderMaterial "plastic",
         .draw "Cylinder" [], .setTransformations, .setShaderColor,
         .setShaderMaterial "plastic", .draw "Box" []] ++
        ([.enter "RenderBackdrop", .setTransformations, .setShaderTexture "wall",
         .setShaderMaterial "cement", .setTextureUVScale, .draw "Plane" []] ++
        ([.enter "RenderLaptop", .setTransformations, .setShaderColor,
         .setShaderMaterial "metal", .draw "Box" [], .setTransformations,
         .setShaderTexture "macbook", .setShaderMaterial "metal", .setTextureUVScale,
         .draw "Plane" [], .setTransformations, .setShaderColor,
         .setShaderMaterial "plastic", .draw "Box" [], .setTransformations, .setShaderColor,
         .setShaderMaterial "plastic", .draw "Box" []] ++
        ([.enter "RenderMonitor", .setTransformations, .setShaderColor,
         .setShaderMaterial "metal", .draw "Box" [], .setTransformations,
         .setShaderTexture "screen", .setShaderMaterial "glass", .setTextureUVScale,
         .draw "Plane" [], .setTransformations, .setShaderColor, .setShaderMaterial "metal",
         .draw "Cylinder" [], .setTransformations, .setShaderColor,
         .setShaderMaterial "metal", .draw "Box" [], .setTransformations, .setShaderColor,
         .setShaderMaterial "plastic", .draw "Box" [], .setTransformations,
         .setShaderMaterial "plastic", .setShaderColor, .draw "Box" []] ++
        ([.enter "RenderKeyboard", .setTransformations, .setShaderTexture "keyboard",
         .setShaderMaterial "plastic", .setTextureUVScale, .draw "Plane" [],
         .setTransformations, .setShaderColor, .setShaderMaterial "plastic", .draw "Box" []] ++
        ([.enter "RenderMouse", .setTransformations, .setShaderTexture "mouse",
         .setTextureUVScale, .setShaderMaterial "plastic", .draw "Sphere" []] ++
        ([.enter "RenderMug", .setTransformations, .setShaderTexture "mugbody",
         .setShaderMaterial "clay", .setTextureUVScale,
         .draw "Cylinder" [false, false, true], .setShaderTexture "coffee",
         .setTextureUVScale, .draw "Cylinder" [true, false, false], .setTransformations,
         .setShaderTexture "mugholder", .setShaderMaterial "clay", .setTextureUVScale,
         .draw "Torus" []] ++
        ([.enter "RenderMousepad", .setTransformations, .setShaderMaterial "Mousepad",
         .setShaderTexture "mousepad", .draw "Box" []])))))))) :=
  ⟨⟨fun h => absurd h (by decide), by decide⟩,
    RenderScene_renders_each_object_once flatMath blankMaterial ⟨materialScene, []⟩
      (fun h => absurd h (by decide)) (by decide)⟩

set_option maxRecDepth 20000 in
/-- C13 (counterexample). In the scene prepared by `PrepareScene`, the twentieth
draw call of `RenderScene`, the top of the mug, is issued without a
`SetTransformations` call and without a `SetShaderMaterial` call since the
previous draw call: between the two cylinder draws of `RenderMug` only the
texture and the UV scale are set. -/
theorem RenderScene_mug_top_reuses_transform_and_material :
    ((preparedScene >>= fun s => RenderScene flatMath blankMaterial ⟨s, []⟩).map
        (fun r => (drawPreparations r.calls false false false).map
          (fun d => d.transformSet && d.textureOrColorSet && d.materialSet))
      = .ok [true, true, true, true, true, true, true, true, true, true, true, true, true,
          true, true, true, true, true, true, false, true, true]) ∧
    ((preparedScene >>= fun s => RenderMug flatMath blankMaterial ⟨s, []⟩).map
        (fun r => r.calls)
      = .ok [.enter "RenderMug", .setTransformations, .setShaderTexture "mugbody",
          .setShaderMaterial "clay", .setTextureUVScale, .draw "Cylinder" [false, false, true],
          .setShaderTexture "coffee", .setTextureUVScale, .draw "Cylinder" [true, false, false],
          .setTransformations, .setShaderTexture "mugholder", .setShaderMaterial "clay",
          .setTextureUVScale, .draw "Torus" []]) := by
  constructor <;> decide

/-- C13 (amended). From a state in which rendering is free of undefined
behaviour, `RenderScene` returns after twenty-two draw calls.  Every draw call
except the twentieth has, since the previous draw call or the entry of its
routine, a `SetTransformations` call, a texture or colour selection and a
`SetShaderMaterial` call; the twentieth, the top of the mug cylinder, has a
texture selection of its own and is drawn with the transform and the material
set for the mug body. -/
theorem RenderScene_draw_preparations (g : GlmMath F) (material : OBJECT_MATERIAL F)
    (r : Run F)
    (hsm : r.scene.m_pShaderManager.isNone = true → r.scene.m_objectMaterials = [])
    (hm : r.scene.m_loadedTextures ≤ 16) :
    ∃ (r1 : Run F) (es : List Event),
      RenderScene g material r = .ok r1 ∧ r1.calls = r.calls ++ es ∧
      drawPreparations es false false false =
        [⟨"Box", [], true, true, true⟩, ⟨"Sphere", [], true, true, true⟩,
        ⟨"Cylinder", [], true, true, true⟩, ⟨"Box", [], true, true, true⟩,
        ⟨"Plane", [], true, true, true⟩, ⟨"Box", [], true, true, true⟩,
        ⟨"Plane", [], true, true, true⟩, ⟨"Box", [], true, true, true⟩,
        ⟨"Box", [], true, true, true⟩, ⟨"Box", [], true, true, true⟩,
        ⟨"Plane", [], true, true, true⟩, ⟨"Cylinder", [], true, true, true⟩,
        ⟨"Box", [], true, true, true⟩, ⟨"Box", [], true, true, true⟩,
        ⟨"Box", [], true, true, true⟩, ⟨"Plane", [], true, true, true⟩,
        ⟨"Box", [], true, true, true⟩, ⟨"Sphere", [], true, true, true⟩,
        ⟨"Cylinder", [false, false, true], true, true, true⟩,
        ⟨"Cylinder", [true, false, false], false, true, false⟩,
        ⟨"Torus", [], true, true, true⟩, ⟨"Box", [], true, true, true⟩] := by
  obtain ⟨r1, hrun, _, hcalls, _⟩ := RenderScene_emits g material r ⟨hsm, hm⟩
  exact ⟨r1, _, hrun, hcalls, rfl⟩

/-- Witness for C13 (amended): the scene with its seven materials defined, no
texture loaded and an empty log. -/
theorem RenderScene_draw_preparations_witness :
    ((materialScene.m_pShaderManager.isNone = true → materialScene.m_objectMaterials = []) ∧
      materialScene.m_loadedTextures ≤ 16) ∧
    ∃ (r1 : Run ℚ) (es : List Event),
      RenderScene flatMath blankMaterial ⟨materialScene, []⟩ = .ok r1 ∧ r1.calls = [] ++ es ∧
      drawPreparations es false false false =
        [⟨"Box", [], true, true, true⟩, ⟨"Sphere", [], true, true, true⟩,
        ⟨"Cylinder", [], true, true, true⟩, ⟨"Box", [], true, true, true⟩,
        ⟨"Plane", [], true, true, true⟩, ⟨"Box", [], true, true, true⟩,
        ⟨"Plane", [], true, true, true⟩, ⟨"Box", [], true, true, true⟩,
        ⟨"Box", [], true, true, true⟩, ⟨"Box", [], true, true, true⟩,
        ⟨"Plane", [], true, true, true⟩, ⟨"Cylinder", [], true, true, true⟩,
        ⟨"Box", [], true, true, true⟩, ⟨"Box", [], true, true, true⟩,
        ⟨"Box", [], true, true, true⟩, ⟨"Plane", [], true, true, true⟩,
        ⟨"Box", [], true, true, true⟩, ⟨"Sphere", [], true, true, true⟩,
        ⟨"Cylinder", [false, false, true], true, true, true⟩,
        ⟨"Cylinder", [true, false, false], false, true, false⟩,
        ⟨"Torus", [], true, true, true⟩, ⟨"Box", [], true, true, true⟩] :=
  ⟨⟨fun h => absurd h (by decide), by decide⟩,
    RenderScene_draw_preparations flatMath blankMaterial ⟨materialScene, []⟩
      (fun h => absurd h (by decide)) (by decide)⟩

end Rendering

end SceneManager
